import Mathlib

/-!
Verification development for the PDF accounting importer backend
(pdf-accounting-importer/backend/app).  The Python source is shallowly
embedded: pure helper functions become Lean functions on `String` or
`List Char`, the regex searches used by the extractors are executed by a
small leftmost-first backtracking matcher (`Pat`), fallible code returns
`Except`, and the job record mutations of the worker become explicit
state passing on a `Job` structure.  Machine text is modelled at the
character level; Python whitespace and digit classes are restricted to
the ASCII and Thai-digit ranges that actually occur in this code base.
-/

set_option maxRecDepth 100000
set_option maxHeartbeats 4000000

namespace Peak

/-- Whitespace class used for Python str.strip and for the regex class
backslash-s, restricted to the ASCII whitespace characters. -/
def isPyWS (c : Char) : Bool :=
  c = ' ' || c = '\t' || c = '\n' || c = '\x0d' || c = '\x0b' || c = '\x0c'

/-- Thai digit characters U+0E50 .. U+0E59. -/
def isThaiDigit (c : Char) : Bool :=
  0x0E50 ≤ c.toNat && c.toNat ≤ 0x0E59

/-- Python str.isdigit / regex backslash-d, restricted to ASCII and Thai
digits (the only digit scripts appearing in this code base). -/
def isPyDigit (c : Char) : Bool :=
  c.isDigit || isThaiDigit c

/-- ASCII digit class, the regex class [0-9]. -/
def isDigitA (c : Char) : Bool := c.isDigit

/-- Word character for the regex assertion backslash-b: ASCII
alphanumerics, underscore, and the Thai block (Thai letters and digits
are word characters in Python re). -/
def isWordChar (c : Char) : Bool :=
  c.isAlphanum || c = '_' || (0x0E01 ≤ c.toNat && c.toNat ≤ 0x0E5B)

/-- Case-insensitive character comparison (ASCII case folding, as in
Python re.IGNORECASE over the ASCII letters used by the patterns). -/
def lowerEq (a b : Char) : Bool := a.toLower = b.toLower

/-- Python str.strip on a character list: drop leading and trailing
whitespace. -/
def stripL (l : List Char) : List Char :=
  ((l.dropWhile isPyWS).reverse.dropWhile isPyWS).reverse

/-- Python str.strip on a string. -/
def pyStrip (s : String) : String := ⟨stripL s.data⟩

/-- Removal of every whitespace character: the effect of
re.sub(backslash-s+, empty, s). -/
def removeWS (s : String) : String := ⟨s.data.filter (fun c => !isPyWS c)⟩

/-- Python str.replace(pat, empty) for a single-character pattern:
removes every occurrence of the character. -/
def removeChar (c : Char) (s : String) : String :=
  ⟨s.data.filter (fun d => d ≠ c)⟩

/-- Fuel-driven core of Python str.replace(pat, empty) for a non-empty
multi-character pattern: left-to-right, non-overlapping. -/
def removeSubF (pat : List Char) : Nat → List Char → List Char
  | 0, l => l
  | _ + 1, [] => []
  | fuel + 1, c :: rest =>
      if pat.isPrefixOf (c :: rest) then
        removeSubF pat fuel ((c :: rest).drop pat.length)
      else
        c :: removeSubF pat fuel rest

/-- Python str.replace(pat, empty) for a multi-character pattern. -/
def removeSub (pat : String) (s : String) : String :=
  ⟨removeSubF pat.data (s.data.length + 1) s.data⟩

/-- Decidable substring containment, Python `pat in s`. -/
def hasSub (pat : String) (s : String) : Bool :=
  (List.range (s.data.length + 1)).any
    (fun i => pat.data.isPrefixOf (s.data.drop i))

/-- Python str.upper over the ASCII letters (Thai characters have no
case and are unchanged). -/
def pyUpper (s : String) : String := ⟨s.data.map Char.toUpper⟩

/-- The helper "".join(c for c in s if c.isdigit()). -/
def digitsOnlyS (s : String) : String := ⟨s.data.filter isPyDigit⟩

/-- Python s[:n] on strings. -/
def pyTake (n : Nat) (s : String) : String := ⟨s.data.take n⟩

/-- Python str.zfill(n) for the digit-only strings it is applied to
(no sign handling needed). -/
def pyZfill (n : Nat) (s : String) : String :=
  ⟨List.replicate (n - s.data.length) '0' ++ s.data⟩

/-- Numeric value of an ASCII or Thai digit character. -/
def digitVal (c : Char) : Nat :=
  if c.isDigit then c.toNat - '0'.toNat
  else if isThaiDigit c then c.toNat - 0x0E50
  else 0

/-- Interpret a digit string as a natural number (Python int on an
all-digit string). -/
def natOfDigits (l : List Char) : Nat :=
  l.foldl (fun acc c => acc * 10 + digitVal c) 0

/-- Thai-digit to Arabic-digit translation table application
(str.translate(THAI_TO_ARABIC)). -/
def thaiToArabicChar (c : Char) : Char :=
  if isThaiDigit c then Char.ofNat ('0'.toNat + (c.toNat - 0x0E50)) else c

def thaiToArabic (s : String) : String := ⟨s.data.map thaiToArabicChar⟩

end Peak

namespace Peak.Re

/-!
A tiny backtracking regex engine, sufficient for the concrete patterns
compiled in the extractor modules.  A pattern is a function from the
full subject and a start position to the list of candidate matches
(captured groups paired with the end position), ordered by the Python
re priority: alternatives in source order, greedy quantifiers longest
first, lazy quantifiers shortest first.  All quantifiers in the source
patterns apply to single-character classes, so candidate enumeration is
a finite range and the engine is structurally total.
-/

abbrev Caps := List (List Char)

abbrev Pat := List Char → Nat → List (Caps × Nat)

/-- Empty pattern: matches the empty string. -/
def pEps : Pat := fun _ pos => [([], pos)]

/-- Never-matching pattern. -/
def pFail : Pat := fun _ _ => []

/-- Case-sensitive literal. -/
def pLit (s : String) : Pat := fun full pos =>
  if s.data.isPrefixOf (full.drop pos) then [([], pos + s.data.length)] else []

/-- Case-insensitive literal (re.IGNORECASE). -/
def pLitCI (s : String) : Pat := fun full pos =>
  let seg := (full.drop pos).take s.data.length
  if seg.length = s.data.length
      && (seg.zip s.data).all (fun p => lowerEq p.1 p.2) then
    [([], pos + s.data.length)]
  else []

/-- Single character of a class. -/
def pCls (f : Char → Bool) : Pat := fun full pos =>
  match full.get? pos with
  | some c => if f c then [([], pos + 1)] else []
  | none => []

/-- Length of the maximal run of class characters from a position. -/
def runLen (f : Char → Bool) (full : List Char) (pos : Nat) : Nat :=
  ((full.drop pos).takeWhile f).length

/-- Greedy Kleene star over a character class. -/
def pClsStar (f : Char → Bool) : Pat := fun full pos =>
  let r := runLen f full pos
  (List.range (r + 1)).map (fun k => ([], pos + (r - k)))

/-- Greedy plus over a character class. -/
def pClsPlus (f : Char → Bool) : Pat := fun full pos =>
  let r := runLen f full pos
  (List.range r).map (fun k => ([], pos + (r - k)))

/-- Exactly n repetitions of a character class. -/
def pClsRep (f : Char → Bool) (n : Nat) : Pat := fun full pos =>
  let seg := (full.drop pos).take n
  if seg.length = n && seg.all f then [([], pos + n)] else []

/-- Greedy counted range lo..hi over a character class. -/
def pClsRange (f : Char → Bool) (lo hi : Nat) : Pat := fun full pos =>
  let r := min (runLen f full pos) hi
  if r < lo then []
  else (List.range (r - lo + 1)).map (fun k => ([], pos + (r - k)))

/-- Greedy unbounded at-least-n over a character class. -/
def pClsMin (f : Char → Bool) (n : Nat) : Pat := fun full pos =>
  let r := runLen f full pos
  if r < n then []
  else (List.range (r - n + 1)).map (fun k => ([], pos + (r - k)))

/-- Lazy dot-star under re.DOTALL: any prefix, shortest first. -/
def pLazyAll : Pat := fun full pos =>
  (List.range (full.length - pos + 1)).map (fun k => ([], pos + k))

/-- Sequential composition. -/
def pSeq (p q : Pat) : Pat := fun full pos =>
  (p full pos).flatMap
    (fun pr => (q full pr.2).map (fun qr => (pr.1 ++ qr.1, qr.2)))

/-- Concatenation of a pattern list. -/
def pCat (ps : List Pat) : Pat := ps.foldr pSeq pEps

/-- Ordered alternation. -/
def pAlt (p q : Pat) : Pat := fun full pos => p full pos ++ q full pos

/-- Ordered alternation over a list. -/
def pAlts (ps : List Pat) : Pat := ps.foldr pAlt pFail

/-- Greedy optional. -/
def pOpt (p : Pat) : Pat := fun full pos => p full pos ++ [([], pos)]

/-- Capture group: records the consumed slice. -/
def pCap (p : Pat) : Pat := fun full pos =>
  (p full pos).map
    (fun r => (r.1 ++ [(full.drop pos).take (r.2 - pos)], r.2))

/-- Word-boundary assertion backslash-b. -/
def pWordB : Pat := fun full pos =>
  let prevW := match (if pos = 0 then none else full.get? (pos - 1)) with
    | some c => isWordChar c
    | none => false
  let curW := match full.get? pos with
    | some c => isWordChar c
    | none => false
  if prevW ≠ curW then [([], pos)] else []

/-- Leftmost search, Python re.search: the first position with a match,
and there the highest-priority candidate.  Returns (start, groups,
end-position). -/
def search (p : Pat) (full : List Char) : Option (Nat × Caps × Nat) :=
  (List.range (full.length + 1)).findSome?
    (fun i =>
      match p full i with
      | [] => none
      | r :: _ => some (i, r.1, r.2))

/-- Search on a string subject. -/
def searchS (p : Pat) (s : String) : Option (Nat × Caps × Nat) :=
  search p s.data

/-- m.group(n) as a string, empty when the group is absent. -/
def grp (caps : Caps) (n : Nat) : String :=
  ⟨(caps.get? (n - 1)).getD []⟩

/-- Python slice t[lo:hi] on the subject used for the context windows
around a match. -/
def sliceS (s : String) (lo hi : Nat) : String :=
  ⟨(s.data.drop lo).take (hi - lo)⟩

/-- Anchored full match of a digit-class repetition, re.fullmatch of a
counted digit pattern. -/
def fullmatchDigits (n : Nat) (s : String) : Bool :=
  s.data.length = n && s.data.all isPyDigit

end Peak.Re

namespace Peak

/-!  utils/text_utils.py  -/

/-- Collapse runs of spaces and tabs to a single space,
re.sub on the class space-or-tab plus (fuel-driven scan). -/
def collapseSTF : Nat → List Char → List Char
  | 0, l => l
  | _ + 1, [] => []
  | fuel + 1, c :: rest =>
      if c = ' ' || c = '\t' then
        ' ' :: collapseSTF fuel (rest.dropWhile (fun d => d = ' ' || d = '\t'))
      else
        c :: collapseSTF fuel rest

def collapseST (l : List Char) : List Char := collapseSTF (l.length + 1) l

/-- Python text.split(newline). -/
def splitNL (l : List Char) : List (List Char) :=
  l.foldr
    (fun c acc =>
      if c = '\n' then [] :: acc
      else
        match acc with
        | h :: t => (c :: h) :: t
        | [] => [[c]])
    [[]]

/-- normalize_text from utils/text_utils.py: Thai digits to Arabic,
drop the Thai repeat character and NUL bytes, collapse intra-line
spaces and tabs, trim every line and drop empty lines, keep newlines.
The unicodedata NFC step is the identity on the already-composed text
handled in this development. -/
def normalizeText (text : String) : String :=
  if text = "" then ""
  else
    let t := thaiToArabic text
    let t := removeChar 'ๆ' t
    let t := removeChar '\x00' t
    let lines := (splitNL t.data).map (fun ln => stripL (collapseST ln))
    let kept := lines.filter (fun ln => ln ≠ [])
    ⟨List.intercalate ['\n'] kept⟩

/-- clean_number_string from utils/text_utils.py. -/
def cleanNumberString (s : String) : String :=
  if s = "" then ""
  else
    let s := pyStrip s
    let s := removeChar ',' s
    let s := removeChar ' ' s
    let s := removeChar '฿' s
    let s := removeSub "THB" s
    let s := removeSub "Baht" s
    ⟨s.data.filter (fun c => isPyDigit c || c = '.')⟩

/-!  The PEAK row.  Python passes rows around as dictionaries whose
canonical keys are the 21 PEAK fields A_seq .. U_group plus the
worker-side metadata keys (underscore keys).  The dictionary is
embedded as a structure; the metadata keys keep their meaning with
Lean-legal names: srcFile for _source_file, platformTag for _platform,
clientTaxTag for _client_tax_id, sellerTag for _seller_id, statusTag
for _status, errorsTag for _errors.  A missing or None value of a
string-valued key behaves exactly like the empty string in every
operation of this code base (truthiness, _safe_str), so those values
are collapsed to the empty string.  A_seq holds an int (worker) or a
str (export preprocessing), mirrored by SeqVal. -/

inductive SeqVal where
  | int (n : Nat)
  | str (s : String)
deriving DecidableEq, Repr

structure Row where
  A_seq : SeqVal := .str ""
  A_company_name : String := ""
  B_doc_date : String := ""
  C_reference : String := ""
  D_vendor_code : String := ""
  E_tax_id_13 : String := ""
  F_branch_5 : String := ""
  G_invoice_no : String := ""
  H_invoice_date : String := ""
  I_tax_purchase_date : String := ""
  J_price_type : String := ""
  K_account : String := ""
  L_description : String := ""
  M_qty : String := ""
  N_unit_price : String := ""
  O_vat_rate : String := ""
  P_wht : String := ""
  Q_payment_method : String := ""
  R_paid_amount : String := ""
  S_pnd : String := ""
  T_note : String := ""
  U_group : String := ""
  srcFile : String := ""
  platformTag : String := ""
  clientTaxTag : String := ""
  sellerTag : String := ""
  statusTag : String := ""
  errorsTag : List String := []
deriving DecidableEq, Repr

attribute [ext] Row

/-!  Spec-modelled helpers of extractors/common.py.  The module
common.py is not under src (only its importers are); the following
definitions are modelled from the specification text of sections 3,
4.2 and 4.4 and are marked accordingly. -/

/-- Colon-like separator class of the label patterns. -/
def colonCls (c : Char) : Bool := c = ':' || c = '#' || c = '：'

def wsStar : Re.Pat := Re.pClsStar isPyWS
def wsPlus : Re.Pat := Re.pClsPlus isPyWS

/-- Money capture group ([0-9,]+(?:\.[0-9]{2})?). -/
def digitComma (c : Char) : Bool := c.isDigit || c = ','
def moneyCap2 : Re.Pat :=
  Re.pCap (Re.pCat [Re.pClsPlus digitComma,
    Re.pOpt (Re.pCat [Re.pLit ".", Re.pClsRep isDigitA 2])])

/-- Money capture group ([0-9,]+(?:\.[0-9]{1,2})?). -/
def moneyCap12 : Re.Pat :=
  Re.pCap (Re.pCat [Re.pClsPlus digitComma,
    Re.pOpt (Re.pCat [Re.pLit ".", Re.pClsRange isDigitA 1 2])])

/-- Strict decimal shape digits+(.digits12)? used to validate cleaned
money strings. -/
def decimalShape : Re.Pat :=
  Re.pCat [Re.pClsPlus isDigitA,
    Re.pOpt (Re.pCat [Re.pLit ".", Re.pClsRange isDigitA 1 2])]

/-- Anchored full match of a pattern against a whole string. -/
def matchFull (p : Re.Pat) (s : String) : Option Re.Caps :=
  (p s.data 0).findSome?
    (fun r => if r.2 = s.data.length then some r.1 else none)

/-- Modelled from the spec: base_row_dict (common.py, absent from src).
Section 3 requires every canonical field to be present as a string,
empty string when unset; the sequence field starts as the empty
string. -/
def baseRowDict : Row := {}

/-- Modelled from the spec: format_peak_row (common.py, absent from
src).  Section 3: every field is present as a string, never null.  On
this typed row representation every field is already a string, so the
function is the identity. -/
def formatPeakRow (r : Row) : Row := r

/-- Modelled from the spec: parse_money (common.py, absent from src).
Section 4.6 and the extractor docstrings: strip currency symbols and
commas, return the normalized decimal string, empty on malformed
input. -/
def parseMoney (v : String) : String :=
  let s := pyStrip v
  if s = "" then ""
  else
    let c := pyStrip (removeChar ',' (removeSub "THB" (removeChar '฿' s)))
    match matchFull decimalShape c with
    | some _ => c
    | none => ""

/-- Word-bounded 13-digit token pattern. -/
def patTax13 : Re.Pat :=
  Re.pCat [Re.pWordB, Re.pCap (Re.pClsRep isPyDigit 13), Re.pWordB]

/-- Modelled from the spec: find_vendor_tax_id (common.py, absent from
src).  Section 4.4: the platform-default constant is overridable by an
in-text match; modelled as the first word-bounded 13-digit token of the
text, empty when there is none (the caller then falls back to the
platform default). -/
def findVendorTaxId (t : String) (_platform : String) : String :=
  match Re.searchS patTax13 t with
  | some (_, caps, _) => Re.grp caps 1
  | none => ""

/-- Modelled from the spec: find_branch (common.py, absent from src).
Section 4.4: resolve branch code (5-digit, default 00000 applied by the
caller); modelled as a labeled branch number search. -/
def patBranch : Re.Pat :=
  Re.pCat [Re.pAlt (Re.pCat [Re.pLit "สาขา", Re.pOpt (Re.pLit "ที่")])
      (Re.pLitCI "Branch"),
    wsStar, Re.pOpt (Re.pCls colonCls), wsStar,
    Re.pCap (Re.pClsRep isPyDigit 5)]

def findBranch (t : String) : String :=
  match Re.searchS patBranch t with
  | some (_, caps, _) => Re.grp caps 1
  | none => ""

/-- Generic day-month-year date pattern with separators - / . -/
def dateSep (c : Char) : Bool := c = '-' || c = '/' || c = '.'
def patDMY : Re.Pat :=
  Re.pCat [Re.pCap (Re.pClsRange isPyDigit 1 2), Re.pCls dateSep,
    Re.pCap (Re.pClsRange isPyDigit 1 2), Re.pCls dateSep,
    Re.pCap (Re.pClsRep isPyDigit 4)]
def patYMD : Re.Pat :=
  Re.pCat [Re.pCap (Re.pClsRep isPyDigit 4), Re.pCls dateSep,
    Re.pCap (Re.pClsRange isPyDigit 1 2), Re.pCls dateSep,
    Re.pCap (Re.pClsRange isPyDigit 1 2)]

/-- Buddhist-era conversion of section 4.4: years above 2500 are
Gregorianized by subtracting 543. -/
def beAdjust (y : Nat) : Nat := if y > 2500 then y - 543 else y

def pad2 (n : Nat) : String := pyZfill 2 (toString n)
def pad4 (n : Nat) : String := pyZfill 4 (toString n)

def ymdString (y m d : Nat) : String := pad4 (beAdjust y) ++ pad2 m ++ pad2 d

/-- Modelled from the spec: parse_date_to_yyyymmdd (common.py, absent
from src).  Section 4.4: convert a matched date string to the 8-digit
form, Buddhist-era adjusted; empty on an unrecognized shape. -/
def parseDateToYyyymmdd (s : String) : String :=
  match matchFull patDMY s with
  | some caps =>
      ymdString (natOfDigits (Re.grp caps 3).data)
        (natOfDigits (Re.grp caps 2).data) (natOfDigits (Re.grp caps 1).data)
  | none =>
      match matchFull patYMD s with
      | some caps =>
          ymdString (natOfDigits (Re.grp caps 1).data)
            (natOfDigits (Re.grp caps 2).data)
            (natOfDigits (Re.grp caps 3).data)
      | none => ""

/-- Modelled from the spec: find_best_date (common.py, absent from
src).  Section 4.4: a generic best-date-in-document search; modelled
as the first day-month-year match, then the first year-month-day
match, Buddhist-era adjusted. -/
def findBestDate (t : String) : String :=
  match Re.searchS patDMY t with
  | some (_, caps, _) =>
      ymdString (natOfDigits (Re.grp caps 3).data)
        (natOfDigits (Re.grp caps 2).data) (natOfDigits (Re.grp caps 1).data)
  | none =>
      match Re.searchS patYMD t with
      | some (_, caps, _) =>
          ymdString (natOfDigits (Re.grp caps 1).data)
            (natOfDigits (Re.grp caps 2).data)
            (natOfDigits (Re.grp caps 3).data)
      | none => ""

/-- Generic amount-extractor output dictionary (get with default empty
string). -/
structure GenAmounts where
  subtotal : String := ""
  vat : String := ""
  total : String := ""
  wht_amount : String := ""
deriving DecidableEq, Repr

/-- Modelled from the spec: extract_amounts (common.py, absent from
src).  Section 4.2: a generic last-resort extractor searching labeled
totals lines on one channel and a withholding remark on a separate
channel; no value of the withholding channel is ever placed into the
totals fields. -/
def patGenTotal : Re.Pat :=
  Re.pCat [Re.pAlt (Re.pLitCI "Total") (Re.pLit "รวมทั้งสิ้น"),
    wsStar, Re.pOpt (Re.pCls colonCls), wsStar,
    Re.pOpt (Re.pLit "฿"), wsStar, moneyCap12]

def patGenSubtotal : Re.Pat :=
  Re.pCat [Re.pAlt (Re.pLitCI "Subtotal") (Re.pLit "ยอดรวมก่อนภาษี"),
    wsStar, Re.pOpt (Re.pCls colonCls), wsStar,
    Re.pOpt (Re.pLit "฿"), wsStar, moneyCap12]

def patGenVat : Re.Pat :=
  Re.pCat [Re.pAlt (Re.pLitCI "VAT") (Re.pLit "ภาษีมูลค่าเพิ่ม"),
    wsStar, Re.pOpt (Re.pCls colonCls), wsStar,
    Re.pOpt (Re.pLit "฿"), wsStar, moneyCap12]

def patGenWht : Re.Pat :=
  Re.pCat [Re.pLitCI "withholding", wsPlus, Re.pLitCI "tax",
    Re.pLazyAll, moneyCap12]

def extractAmounts (t : String) : GenAmounts :=
  let pick (p : Re.Pat) : String :=
    match Re.searchS p t with
    | some (_, caps, _) => parseMoney (Re.grp caps 1)
    | none => ""
  { subtotal := pick patGenSubtotal
    vat := pick patGenVat
    total := pick patGenTotal
    wht_amount := pick patGenWht }

/-!  Exact rational stand-ins for the Python float computations.  The
reachable float values in the embedded paths are sums and differences
of two-decimal amounts, on which binary floating point and exact
rational arithmetic agree after two-decimal formatting. -/

/-- Python float(s) on the decimal strings of this code base, None on
the shapes float rejects (the callers catch the ValueError). -/
def floatOpt (s : String) : Option ℚ :=
  let c := pyStrip s
  match matchFull (Re.pCat [Re.pCap (Re.pClsPlus isDigitA),
      Re.pOpt (Re.pCat [Re.pLit ".", Re.pCap (Re.pClsPlus isDigitA)])]) c with
  | some caps =>
      let ip := natOfDigits (Re.grp caps 1).data
      let fp := (Re.grp caps 2).data
      some ((ip : ℚ) + (natOfDigits fp : ℚ) / ((10 : ℚ) ^ fp.length))
  | none => none

/-- Two-decimal formatting of a nonnegative exact rational,
Python f-string .2f on the exactly representable values reached
here. -/
def format2 (q : ℚ) : String :=
  let n : ℤ := ⌊q * 100⌋
  let m := n.toNat
  toString (m / 100) ++ "." ++ pad2 (m % 100)

/-- Round-half-even to two decimals on exact rationals, standing in
for Python round(x, 2). -/
def roundHalfEven2 (q : ℚ) : ℚ :=
  let x := q * 100
  let fl : ℤ := ⌊x⌋
  let fr := x - (fl : ℚ)
  let n : ℤ :=
    if fr < 1/2 then fl
    else if fr > 1/2 then fl + 1
    else if fl % 2 = 0 then fl else fl + 1
  (n : ℚ) / 100

end Peak

namespace Peak

/-!  extractors/vendor_mapping.py  -/

def CLIENT_RABBIT : String := "0105561071873"
def CLIENT_SHD : String := "0105563022918"
def CLIENT_TOPONE : String := "0105565027615"

def VENDOR_SHOPEE : String := "0105558019581"
def VENDOR_LAZADA : String := "010556214176"
def VENDOR_TIKTOK : String := "0105555040244"
def VENDOR_MARKETPLACE_OTHER : String := "0105548000241"
def VENDOR_SHOPIFY : String := "0993000475879"
def VENDOR_SPX : String := "0105561164871"

/-- VENDOR_CODE_BY_CLIENT: client tax id, then vendor tax id, to vendor
code; dictionaries embedded as ordered association lists. -/
def VENDOR_CODE_BY_CLIENT : List (String × List (String × String)) :=
  [(CLIENT_RABBIT,
     [(VENDOR_SHOPEE, "C00395"), (VENDOR_LAZADA, "C00411"),
      (VENDOR_TIKTOK, "C00562"), (VENDOR_MARKETPLACE_OTHER, "C01031"),
      (VENDOR_SHOPIFY, "C01143"), (VENDOR_SPX, "C00563")]),
   (CLIENT_SHD,
     [(VENDOR_SHOPEE, "C00888"), (VENDOR_LAZADA, "C01132"),
      (VENDOR_TIKTOK, "C01246"), (VENDOR_MARKETPLACE_OTHER, "C01420"),
      (VENDOR_SHOPIFY, "C33491"), (VENDOR_SPX, "C01133")]),
   (CLIENT_TOPONE,
     [(VENDOR_SHOPEE, "C00020"), (VENDOR_LAZADA, "C00025"),
      (VENDOR_TIKTOK, "C00051"), (VENDOR_MARKETPLACE_OTHER, "C00095"),
      (VENDOR_SPX, "C00038")])]

/-- VENDOR_NAME_TO_TAX in dictionary insertion order. -/
def VENDOR_NAME_TO_TAX : List (String × String) :=
  [("shopee", VENDOR_SHOPEE), ("ช้อปปี้", VENDOR_SHOPEE),
   ("shopee (thailand)", VENDOR_SHOPEE), ("shopee thailand", VENDOR_SHOPEE),
   ("shopee.co.th", VENDOR_SHOPEE),
   ("lazada", VENDOR_LAZADA), ("ลาซาด้า", VENDOR_LAZADA),
   ("lazada e-services", VENDOR_LAZADA), ("lazada e services", VENDOR_LAZADA),
   ("lazada.co.th", VENDOR_LAZADA),
   ("tiktok", VENDOR_TIKTOK), ("ติ๊กต๊อก", VENDOR_TIKTOK),
   ("tiktok shop", VENDOR_TIKTOK),
   ("spx", VENDOR_SPX), ("spx express", VENDOR_SPX),
   ("shopify", VENDOR_SHOPIFY), ("shopify commerce", VENDOR_SHOPIFY),
   ("marketplace", VENDOR_MARKETPLACE_OTHER),
   ("ตัวกลาง", VENDOR_MARKETPLACE_OTHER),
   ("มาร์เก็ตเพลส", VENDOR_MARKETPLACE_OTHER),
   ("better marketplace", VENDOR_MARKETPLACE_OTHER),
   ("เบ็ตเตอร์", VENDOR_MARKETPLACE_OTHER)]

/-- Collapse every whitespace run to one space, _WS_RE.sub(space, s)
(fuel-driven scan). -/
def collapseWSF : Nat → List Char → List Char
  | 0, l => l
  | _ + 1, [] => []
  | fuel + 1, c :: rest =>
      if isPyWS c then
        ' ' :: collapseWSF fuel (rest.dropWhile isPyWS)
      else
        c :: collapseWSF fuel rest

def collapseWS (l : List Char) : List Char := collapseWSF (l.length + 1) l

/-- _norm_name: strip, lower-case, Thai digits to Arabic, collapse
whitespace, strip. -/
def normName (name : String) : String :=
  let s := pyStrip name
  if s = "" then ""
  else
    let s : String := ⟨s.data.map Char.toLower⟩
    let s := thaiToArabic s
    pyStrip ⟨collapseWS s.data⟩

/-- _extract_13_digits: first word-bounded 13-digit token after
Thai-digit conversion. -/
def extract13Digits (s : String) : String :=
  if s = "" then ""
  else
    let s := thaiToArabic s
    match Re.searchS patTax13 s with
    | some (_, caps, _) => Re.grp caps 1
    | none => ""

/-- _norm_tax_id: embedded 13-digit token or empty; the alias map of
the source is empty, so the alias lookup is the identity. -/
def normTaxId (taxId : String) : String :=
  let s := pyStrip taxId
  if s = "" then ""
  else
    let s := thaiToArabic s
    let d13 := extract13Digits s
    if d13 = "" then "" else d13

/-- _is_known_client. -/
def isKnownClient (clientTaxId : String) : Bool :=
  let c := normTaxId clientTaxId
  c = CLIENT_RABBIT || c = CLIENT_SHD || c = CLIENT_TOPONE

/-- _code_is_valid: non-empty and an anchored case-insensitive match of
C followed by exactly five digits. -/
def codeIsValid (code : String) : Bool :=
  code ≠ "" &&
    (let t := (pyStrip code).data
     t.length = 6 &&
       (match t.head? with
        | some c => lowerEq c 'C'
        | none => false) &&
       t.tail.all isPyDigit)

/-- get_vendor_tax_id_from_name. -/
def getVendorTaxIdFromName (vendorName : String) : String :=
  let vn := normName vendorName
  if vn = "" then ""
  else
    match VENDOR_NAME_TO_TAX.find? (fun kv => kv.1 ≠ "" && hasSub kv.1 vn) with
    | some kv => kv.2
    | none => ""

/-- Nested dictionary lookup VENDOR_CODE_BY_CLIENT.get(c, {}).get(v). -/
def vendorCodeLookup (c v : String) : Option String :=
  match VENDOR_CODE_BY_CLIENT.find? (fun kv => kv.1 = c) with
  | some kv =>
      match kv.2.find? (fun p => p.1 = v) with
      | some p => some p.2
      | none => none
  | none => none

/-- get_vendor_code: hardened vendor-code resolution.  Unknown client
resolves to the sentinel Unknown; a known client resolves through the
vendor tax id, then through the name hint, and otherwise to Unknown. -/
def getVendorCode (clientTaxId : String) (vendorTaxId : String := "")
    (vendorName : String := "") : String :=
  let c := normTaxId clientTaxId
  if c = "" || !isKnownClient c then "Unknown"
  else
    let v := normTaxId vendorTaxId
    let byTax :=
      if v ≠ "" then
        match vendorCodeLookup c v with
        | some code => if codeIsValid code then some code else none
        | none => none
      else none
    match byTax with
    | some code => code
    | none =>
        let nameHint := if vendorName ≠ "" then vendorName else vendorTaxId
        let v2 := getVendorTaxIdFromName nameHint
        let byName :=
          if v2 ≠ "" then
            match vendorCodeLookup c v2 with
            | some code => if codeIsValid code then some code else none
            | none => none
          else none
        match byName with
        | some code => code
        | none => "Unknown"

end Peak

namespace Peak

/-!  extractors/shopee.py  -/

/-- Python str.startswith. -/
def pyStartsWith (pre s : String) : Bool := pre.data.isPrefixOf s.data

def clsAlnum (c : Char) : Bool := c.isAlphanum
def clsAlnumDS (c : Char) : Bool := c.isAlphanum || c = '-' || c = '/'
def clsVR (c : Char) : Bool := lowerEq c 'v' || lowerEq c 'r'

/-- Core of the TI document-number alternative of RE_SHOPEE_DOC_*. -/
def shopeeTICore : Re.Pat :=
  Re.pCat [Re.pOpt (Re.pLitCI "Shopee-"), Re.pLitCI "TI", Re.pCls clsVR,
    Re.pLit "-", Re.pClsPlus clsAlnum, Re.pLit "-",
    Re.pClsRep isPyDigit 5, Re.pLit "-", Re.pClsRep isPyDigit 6,
    Re.pLit "-", Re.pClsMin isPyDigit 7]

/-- Core of the TRS document-number alternative. -/
def shopeeTRSCore : Re.Pat :=
  Re.pCat [Re.pLitCI "TRS", Re.pClsMin clsAlnumDS 10]

/-- RE_SHOPEE_DOC_TI_FORMAT. -/
def patShopeeDocTI : Re.Pat :=
  Re.pCat [Re.pWordB, Re.pCap shopeeTICore, Re.pWordB]

/-- RE_SHOPEE_DOC_TRS_FORMAT. -/
def patShopeeDocTRS : Re.Pat :=
  Re.pCat [Re.pWordB, Re.pCap shopeeTRSCore, Re.pWordB]

/-- RE_SHOPEE_DOC_STRICT. -/
def patShopeeDocStrict : Re.Pat :=
  Re.pCat [Re.pWordB, Re.pCap (Re.pAlt shopeeTICore shopeeTRSCore), Re.pWordB]

/-- RE_SHOPEE_REFERENCE_CODE_FLEX. -/
def patShopeeRefFlex : Re.Pat :=
  Re.pCat [Re.pWordB, Re.pCap (Re.pClsRep isPyDigit 4), wsStar,
    Re.pLit "-", wsStar, Re.pCap (Re.pClsRep isPyDigit 7), Re.pWordB]

/-- RE_SHOPEE_FULL_REFERENCE. -/
def patShopeeFullRef : Re.Pat :=
  Re.pCat [Re.pWordB, Re.pCap shopeeTRSCore, wsPlus,
    Re.pCap (Re.pClsRep isPyDigit 4), wsStar, Re.pLit "-", wsStar,
    Re.pCap (Re.pClsRep isPyDigit 7), Re.pWordB]

/-- RE_SHOPEE_DOC_DATE label alternation. -/
def shopeeDocDateLabels : Re.Pat :=
  Re.pAlts
    [Re.pCat [Re.pLit "วันที่",
       Re.pOpt (Re.pAlt (Re.pLit "เอกสาร") (Re.pLit "ออกเอกสาร"))],
     Re.pCat [Re.pLitCI "Date", wsStar,
       Re.pOpt (Re.pCat [Re.pLitCI "of", wsStar, Re.pLitCI "issue"])],
     Re.pCat [Re.pLitCI "Issue", wsStar, Re.pLitCI "date"],
     Re.pCat [Re.pLitCI "Document", wsStar, Re.pLitCI "date"]]

/-- Date alternation of the Shopee date patterns, one capture group. -/
def dmyCore : Re.Pat :=
  Re.pCat [Re.pClsRange isPyDigit 1 2, Re.pCls dateSep,
    Re.pClsRange isPyDigit 1 2, Re.pCls dateSep, Re.pClsRep isPyDigit 4]
def ymdCore : Re.Pat :=
  Re.pCat [Re.pClsRep isPyDigit 4, Re.pCls dateSep,
    Re.pClsRange isPyDigit 1 2, Re.pCls dateSep, Re.pClsRange isPyDigit 1 2]

/-- RE_SHOPEE_DOC_DATE. -/
def patShopeeDocDate : Re.Pat :=
  Re.pCat [shopeeDocDateLabels, wsStar, Re.pOpt (Re.pCls colonCls), wsStar,
    Re.pCap (Re.pAlt dmyCore ymdCore)]

/-- RE_SHOPEE_INVOICE_DATE. -/
def patShopeeInvoiceDate : Re.Pat :=
  Re.pCat
    [Re.pAlts
      [Re.pCat [Re.pLit "วันที่ใบกำกับ", Re.pOpt (Re.pLit "ภาษี")],
       Re.pCat [Re.pLitCI "Invoice", wsStar, Re.pLitCI "date"],
       Re.pCat [Re.pLitCI "Tax", wsStar, Re.pLitCI "Invoice", wsStar,
         Re.pLitCI "date"]],
     wsStar, Re.pOpt (Re.pCls colonCls), wsStar,
     Re.pCap (Re.pAlt dmyCore ymdCore)]

/-- RE_SHOPEE_WHT_THAI. -/
def patShopeeWhtThai : Re.Pat :=
  Re.pCat [Re.pAlt (Re.pLit "หัก") (Re.pLit "ภาษี"), Re.pLazyAll,
    Re.pLit "ที่จ่าย", Re.pLazyAll,
    Re.pAlt (Re.pLit "อัตรา") (Re.pLit "ร้อยละ"), wsStar,
    Re.pCap (Re.pClsRange isDigitA 1 2), wsStar, Re.pLit "%", Re.pLazyAll,
    Re.pAlt (Re.pLit "จำนวน") (Re.pLit "เป็นเงิน"), wsStar, moneyCap2]

/-- RE_SHOPEE_WHT_EN. -/
def patShopeeWhtEn : Re.Pat :=
  Re.pCat [Re.pLitCI "withholding", wsPlus, Re.pLitCI "tax", Re.pLazyAll,
    Re.pCap (Re.pClsRange isPyDigit 1 2), wsStar, Re.pLit "%", Re.pLazyAll,
    Re.pAlt (Re.pLitCI "at") (Re.pLit "="), wsStar, moneyCap2, wsStar,
    Re.pLitCI "THB"]

/-- RE_SUM_EXCL. -/
def patSumExcl : Re.Pat :=
  Re.pCat [Re.pLitCI "Total", wsStar, Re.pLitCI "Value", wsStar,
    Re.pLitCI "of", wsStar, Re.pLitCI "Services", wsStar, Re.pLit "(",
    Re.pLitCI "Excluded", wsStar, Re.pLitCI "VAT", Re.pLit ")", wsStar,
    moneyCap2]

/-- RE_SUM_INCL. -/
def patSumIncl : Re.Pat :=
  Re.pCat [Re.pLitCI "Total", wsStar, Re.pLitCI "Value", wsStar,
    Re.pLitCI "of", wsStar, Re.pLitCI "Services", wsStar, Re.pLit "(",
    Re.pLitCI "Included", wsStar, Re.pLitCI "VAT", Re.pLit ")", wsStar,
    moneyCap2]

/-- RE_SUM_VAT. -/
def patSumVat : Re.Pat :=
  Re.pCat
    [Re.pAlt (Re.pCat [Re.pLitCI "VAT", wsStar, Re.pLit "7%", wsStar])
       (Re.pCat [Re.pLit "ภาษีมูลค่าเพิ่ม", wsStar, Re.pLit "7%", wsStar]),
     moneyCap2]

/-- RE_SUM_EXCL_AFTER_DISCOUNT. -/
def patSumExclAfterDiscount : Re.Pat :=
  Re.pCat [Re.pLitCI "Excluded", wsStar, Re.pLitCI "VAT", Re.pLit ")",
    wsStar, Re.pLitCI "after", wsStar, Re.pLitCI "discount", wsStar,
    moneyCap2]

/-- Shopee _money: parse_money with exception containment (the
embedding is total). -/
def moneyShopee (v : String) : String := parseMoney v

/-- Shopee _compact_ref: strip, then remove every whitespace
character. -/
def compactRefShopee (v : String) : String :=
  let s := pyStrip v
  if s = "" then "" else removeWS s

/-- _clean_ref_code. -/
def cleanRefCode (mmdd seq7 : String) : String := mmdd ++ "-" ++ seq7

/-- _extract_ref_code_anywhere. -/
def extractRefCodeAnywhereShopee (t : String) : String :=
  match Re.searchS patShopeeRefFlex t with
  | some (_, caps, _) => cleanRefCode (Re.grp caps 1) (Re.grp caps 2)
  | none => ""

/-- extract_wht_from_shopee_text: (rate, amount), Thai pattern first,
then the English remark. -/
def extractWhtFromShopeeText (text : String) : String × String :=
  match Re.searchS patShopeeWhtThai text with
  | some (_, caps, _) => (Re.grp caps 1 ++ "%", moneyShopee (Re.grp caps 2))
  | none =>
      match Re.searchS patShopeeWhtEn text with
      | some (_, caps, _) =>
          (Re.grp caps 1 ++ "%", moneyShopee (Re.grp caps 2))
      | none => ("", "")

/-- Output dictionary of extract_amounts_shopee_summary; a key absent
from the source dictionary is the empty string here (the callers read
with get and default empty string). -/
structure ShSummary where
  subtotal : String := ""
  vat : String := ""
  total : String := ""
  wht_rate : String := ""
  wht_amount : String := ""
deriving DecidableEq, Repr

/-- extract_amounts_shopee_summary: summary-block amounts; the
3-percent computation stands on exact rationals for the binary float
expression round(base * 0.03, 2) of the source, which only feeds the
detection-only withholding fields. -/
def extractAmountsShopeeSummary (text : String) : ShSummary :=
  let t := normalizeText text
  let subtotal :=
    match Re.searchS patSumExcl t with
    | some (_, caps, _) => moneyShopee (Re.grp caps 1)
    | none => ""
  let subtotal :=
    if subtotal = "" then
      match Re.searchS patSumExclAfterDiscount t with
      | some (_, caps, _) => moneyShopee (Re.grp caps 1)
      | none => ""
    else subtotal
  let vat :=
    match Re.searchS patSumVat t with
    | some (_, caps, _) => moneyShopee (Re.grp caps 1)
    | none => ""
  let total :=
    match Re.searchS patSumIncl t with
    | some (_, caps, _) => moneyShopee (Re.grp caps 1)
    | none => ""
  let wht := extractWhtFromShopeeText t
  let whtRate := wht.1
  let whtAmount := wht.2
  let calcOpt :=
    if whtAmount = "" && subtotal ≠ "" then
      match floatOpt subtotal with
      | some base =>
          if base > 0 then
            some (format2 (roundHalfEven2 (base * (3 / 100))))
          else none
      | none => none
    else none
  let whtAmount := match calcOpt with | some a => a | none => whtAmount
  let whtRate :=
    match calcOpt with
    | some _ => if whtRate ≠ "" then whtRate else "3%"
    | none => whtRate
  { subtotal := subtotal, vat := vat, total := total,
    wht_rate := whtRate, wht_amount := whtAmount }

/-- extract_shopee_full_reference: the glued full reference, never
containing whitespace. -/
def extractShopeeFullReference (text : String) (filename : String := "") :
    String :=
  let t := normalizeText text
  let fn := normalizeText filename
  match Re.searchS patShopeeFullRef t with
  | some (_, caps, _) =>
      compactRefShopee
        (Re.grp caps 1 ++ cleanRefCode (Re.grp caps 2) (Re.grp caps 3))
  | none =>
  match Re.searchS patShopeeDocTI t with
  | some (_, caps, _) => compactRefShopee (Re.grp caps 1)
  | none =>
  let docNo :=
    match Re.searchS patShopeeDocTRS t with
    | some (_, caps, _) => Re.grp caps 1
    | none => ""
  if docNo ≠ "" then
    let ref := extractRefCodeAnywhereShopee t
    if ref ≠ "" then compactRefShopee (docNo ++ ref)
    else compactRefShopee docNo
  else
  match Re.searchS patShopeeDocStrict t with
  | some (_, caps, _) =>
      let doc := Re.grp caps 1
      if pyStartsWith "TRS" (pyUpper doc) then
        let ref := extractRefCodeAnywhereShopee t
        if ref ≠ "" then compactRefShopee (doc ++ ref)
        else compactRefShopee doc
      else compactRefShopee doc
  | none =>
  match Re.searchS patShopeeFullRef fn with
  | some (_, caps, _) =>
      compactRefShopee
        (Re.grp caps 1 ++ cleanRefCode (Re.grp caps 2) (Re.grp caps 3))
  | none =>
  match Re.searchS patShopeeDocTRS fn with
  | some (_, caps, _) =>
      let doc := Re.grp caps 1
      let ref := extractRefCodeAnywhereShopee fn
      if ref ≠ "" then compactRefShopee (doc ++ ref)
      else compactRefShopee doc
  | none =>
  match Re.searchS patShopeeDocTI fn with
  | some (_, caps, _) => compactRefShopee (Re.grp caps 1)
  | none => ""

/-- The merged subtotal, vat, total and withholding amount of
extract_shopee step 4 (summary first, generic fallback only when the
whole summary is missing). -/
def shopeeAmounts (t : String) : String × String × String × String :=
  let sums := extractAmountsShopeeSummary t
  let subtotal := sums.subtotal
  let vat := sums.vat
  let total := sums.total
  let whtAmount := sums.wht_amount
  if !(subtotal ≠ "" || vat ≠ "" || total ≠ "") then
    let amounts := extractAmounts t
    let subtotal := if subtotal ≠ "" then subtotal else amounts.subtotal
    let vat := if vat ≠ "" then vat else amounts.vat
    let total := if total ≠ "" then total else amounts.total
    let whtAmount := if whtAmount ≠ "" then whtAmount else amounts.wht_amount
    let whtAmount :=
      if whtAmount = "" then
        let wa := (extractWhtFromShopeeText t).2
        if wa ≠ "" then wa else whtAmount
      else whtAmount
    (subtotal, vat, total, whtAmount)
  else
    (subtotal, vat, total, whtAmount)

/-- Step 1 of extract_shopee: vendor tax id. -/
def shStepE (vendorTax : String) (row : Row) : Row :=
  { row with E_tax_id_13 := vendorTax }

/-- Step 1 of extract_shopee: client-aware vendor code, with the bare
platform name when no client tax id was given. -/
def shStepD (clientTaxId vendorTax : String) (row : Row) : Row :=
  if clientTaxId ≠ "" then
    let code := getVendorCode clientTaxId vendorTax "Shopee"
    { row with D_vendor_code := if code ≠ "" then code else "Shopee" }
  else
    { row with D_vendor_code := "Shopee" }

/-- Branch resolution of extract_shopee. -/
def shStepF (t : String) (row : Row) : Row :=
  { row with F_branch_5 :=
      let b := findBranch t
      if b ≠ "" then b else "00000" }

/-- Step 2 of extract_shopee: glued full reference into both reference
fields. -/
def shStepRef (fullRef : String) (row : Row) : Row :=
  if fullRef ≠ "" then
    let fullRef := compactRefShopee fullRef
    { row with G_invoice_no := fullRef, C_reference := fullRef }
  else row

/-- Step 3 of extract_shopee: the resolved date into the three date
fields. -/
def shStepDate (date : String) (row : Row) : Row :=
  if date ≠ "" then
    { row with B_doc_date := date, H_invoice_date := date,
               I_tax_purchase_date := date }
  else row

/-- The date resolution chain of extract_shopee step 3. -/
def shopeeDate (t : String) : String :=
  let date :=
    match Re.searchS patShopeeDocDate t with
    | some (_, caps, _) => parseDateToYyyymmdd (Re.grp caps 1)
    | none => ""
  let date :=
    if date = "" then
      match Re.searchS patShopeeInvoiceDate t with
      | some (_, caps, _) => parseDateToYyyymmdd (Re.grp caps 1)
      | none => ""
    else date
  if date = "" then findBestDate t else date

/-- Steps 1 to 3 of extract_shopee: vendor tax id and vendor code,
branch, glued full reference, dates. -/
def extractShopeeHead (text : String) (clientTaxId : String := "")
    (filename : String := "") : Row :=
  let t := normalizeText text
  let vendorTax :=
    let v := findVendorTaxId t "Shopee"
    if v ≠ "" then v else VENDOR_SHOPEE
  shStepDate (shopeeDate t)
    (shStepRef (extractShopeeFullReference t filename)
      (shStepF t (shStepD clientTaxId vendorTax
        (shStepE vendorTax baseRowDict))))

/-- Fixed descriptive fields of extract_shopee step 4. -/
def shStepFixed (row : Row) : Row :=
  { row with M_qty := "1", J_price_type := "1", O_vat_rate := "7%" }

/-- Unit-price mapping of extract_shopee: the excluded-VAT subtotal
whenever available. -/
def shStepN (a : String × String × String × String) (row : Row) : Row :=
  { row with N_unit_price :=
      if a.1 ≠ "" then a.1
      else if a.2.2.1 ≠ "" then a.2.2.1
      else if a.2.1 ≠ "" then a.2.1
      else "0" }

/-- Paid-amount mapping of extract_shopee: the included-VAT total
whenever available, reading the already-assigned unit price as the
last fallback. -/
def shStepR (a : String × String × String × String) (row : Row) : Row :=
  { row with R_paid_amount :=
      if a.2.2.1 ≠ "" then a.2.2.1
      else if a.1 ≠ "" then a.1
      else if row.N_unit_price ≠ "" then row.N_unit_price
      else "0" }

/-- Forced-blank withholding of extract_shopee. -/
def shStepP (row : Row) : Row := { row with P_wht := "" }

/-- Optional PND code of extract_shopee. -/
def shStepS (whtAmount : String) (row : Row) : Row :=
  if whtAmount ≠ "" then { row with S_pnd := "53" } else row

/-- Payment method, description, group and blank note of
extract_shopee steps 4 to 6. -/
def shStepFixed2 (row : Row) : Row :=
  { row with Q_payment_method := "หักจากยอดขาย",
             L_description := "Marketplace Expense",
             U_group := "Marketplace Expense", T_note := "" }

/-- Final reference compaction of extract_shopee step 7. -/
def shStepCompact (row : Row) : Row :=
  { row with C_reference := compactRefShopee row.C_reference,
             G_invoice_no := compactRefShopee row.G_invoice_no }

/-- First reference sync of extract_shopee step 7. -/
def shStepSync1 (row : Row) : Row :=
  if row.C_reference = "" && row.G_invoice_no ≠ "" then
    { row with C_reference := row.G_invoice_no }
  else row

/-- Second reference sync of extract_shopee step 7. -/
def shStepSync2 (row : Row) : Row :=
  if row.G_invoice_no = "" && row.C_reference ≠ "" then
    { row with G_invoice_no := row.C_reference }
  else row

/-- Final blank withholding and account of extract_shopee. -/
def shStepFinal (row : Row) : Row :=
  { row with P_wht := "", K_account := "" }

/-- Steps 4 to 7 of extract_shopee on an already normalized text:
amount mapping, fixed descriptive fields, final reference compaction
and sync. -/
def extractShopeeTail (t : String) (row : Row) : Row :=
  let a := shopeeAmounts t
  formatPeakRow
    (shStepFinal (shStepSync2 (shStepSync1 (shStepCompact
      (shStepFixed2 (shStepS a.2.2.2 (shStepP
        (shStepR a (shStepN a (shStepFixed row))))))))))

/-- extract_shopee: the Shopee extractor, PEAK A-U output.  The vendor
mapping import of the source succeeds, so VENDOR_MAPPING_AVAILABLE is
true and the get_vendor_code call (total in this embedding) replaces
the try/except fallback chain. -/
def extractShopee (text : String) (clientTaxId : String := "")
    (filename : String := "") : Row :=
  extractShopeeTail (normalizeText text)
    (extractShopeeHead text clientTaxId filename)

end Peak

namespace Peak

/-!  extractors/spx.py  -/

/-- POLICY FLAG WHT_RATE_MODE of spx.py. -/
def WHT_RATE_MODE : String := "AUTO"

/-- RE_SPX_DOCNO. -/
def patSpxDocno : Re.Pat :=
  Re.pCat [Re.pAlt (Re.pLit "เลขที่")
      (Re.pCat [Re.pLitCI "No", Re.pOpt (Re.pLit ".")]),
    wsStar, Re.pOpt (Re.pCls colonCls), wsStar,
    Re.pCap (Re.pCat [Re.pLitCI "RCS", Re.pClsMin clsAlnumDS 8])]

/-- RE_SPX_REF_CODE_FLEX. -/
def patSpxRefFlex : Re.Pat :=
  Re.pCat [Re.pWordB, Re.pCap (Re.pClsRep isPyDigit 4), wsStar,
    Re.pLit "-", wsStar, Re.pCap (Re.pClsRep isPyDigit 7), Re.pWordB]

/-- RE_SPX_FULL_REFERENCE. -/
def patSpxFullRef : Re.Pat :=
  Re.pCat [Re.pWordB,
    Re.pCap (Re.pCat [Re.pLitCI "RCS", Re.pClsMin clsAlnumDS 8]), wsPlus,
    Re.pCap (Re.pClsRep isPyDigit 4), wsStar, Re.pLit "-", wsStar,
    Re.pCap (Re.pClsRep isPyDigit 7), Re.pWordB]

/-- Bare RCS token pattern of the last-attempt search. -/
def patSpxDocBare : Re.Pat :=
  Re.pCap (Re.pCat [Re.pLitCI "RCS", Re.pClsMin clsAlnumDS 8])

/-- RE_TOTAL_INC_VAT. -/
def patTotalIncVat : Re.Pat :=
  Re.pCat
    [Re.pAlts
      [Re.pCat [Re.pLit "รวม", wsStar, Re.pLit "ทั้ง", wsStar,
         Re.pLit "สิ้น"],
       Re.pCat [Re.pLit "จำนวนเงินรวม", wsStar, Re.pLit "(",
         Re.pLit "รวม", wsStar, Re.pLit "ภาษี"],
       Re.pCat [Re.pLitCI "Total", wsStar, Re.pOpt (Re.pLitCI "amount"),
         wsStar, Re.pOpt (Re.pLit "("),
         Re.pAlt (Re.pLitCI "including")
           (Re.pCat [Re.pLitCI "incl", Re.pOpt (Re.pLit ".")]),
         wsStar, Re.pLitCI "VAT", Re.pOpt (Re.pLit ")")],
       Re.pCat [Re.pLitCI "Grand", wsStar, Re.pLitCI "Total"]],
     wsStar, Re.pOpt (Re.pCls colonCls), wsStar, Re.pOpt (Re.pLit "฿"),
     wsStar, moneyCap12]

/-- RE_TOTAL_EX_VAT. -/
def patTotalExVat : Re.Pat :=
  Re.pCat
    [Re.pAlts
      [Re.pCat [Re.pLit "ก่อน", wsStar, Re.pLit "ภาษี"],
       Re.pCat [Re.pLit "ยอดรวม", wsStar, Re.pLit "(", Re.pLit "ไม่รวม",
         wsStar, Re.pLit "ภาษี"],
       Re.pCat [Re.pLitCI "Subtotal", wsStar, Re.pOpt (Re.pLit "("),
         Re.pAlt (Re.pLitCI "excluding")
           (Re.pCat [Re.pLitCI "excl", Re.pOpt (Re.pLit ".")]),
         wsStar, Re.pLitCI "VAT", Re.pOpt (Re.pLit ")")],
       Re.pCat [Re.pLitCI "Total", wsStar, Re.pLitCI "excluding", wsStar,
         Re.pLitCI "VAT"]],
     wsStar, Re.pOpt (Re.pCls colonCls), wsStar, Re.pOpt (Re.pLit "฿"),
     wsStar, moneyCap12]

/-- RE_VAT_AMOUNT. -/
def patVatAmount : Re.Pat :=
  Re.pCat
    [Re.pAlt (Re.pLit "ภาษีมูลค่าเพิ่ม") (Re.pLitCI "VAT"), wsStar,
     Re.pOpt (Re.pAlts
       [Re.pCat [Re.pLit "7", wsStar, Re.pLit "%"], Re.pLit "7%",
        Re.pCat [Re.pOpt (Re.pLit "@"), wsStar, Re.pLit "7%"]]),
     wsStar, Re.pOpt (Re.pCls colonCls), wsStar, Re.pOpt (Re.pLit "฿"),
     wsStar, moneyCap12]

/-- RE_SPX_TOTAL_AMOUNT. -/
def patSpxTotalAmount : Re.Pat :=
  Re.pCat
    [Re.pAlt (Re.pLit "จำนวนเงินรวม")
       (Re.pCat [Re.pLitCI "Total", wsStar, Re.pLitCI "amount"]),
     wsStar, Re.pOpt (Re.pCls colonCls), wsStar, Re.pOpt (Re.pLit "฿"),
     wsStar, moneyCap12]

/-- RE_SPX_WHT_TH. -/
def patSpxWhtTh : Re.Pat :=
  Re.pCat [Re.pLit "หักภาษีเงินได้", wsStar, Re.pLit "ณ", wsStar,
    Re.pLit "ที่จ่าย", Re.pLazyAll, Re.pLit "อัตรา",
    Re.pOpt (Re.pLit "ร้อย"), Re.pLit "ละ", wsStar,
    Re.pCap (Re.pClsPlus isPyDigit), wsStar, Re.pLit "%", Re.pLazyAll,
    Re.pAlt (Re.pLit "เป็นจำนวนเงิน") (Re.pLit "จำนวน"), wsStar,
    moneyCap12]

/-- RE_SPX_WHT_EN. -/
def patSpxWhtEn : Re.Pat :=
  Re.pCat [Re.pLitCI "withholding", wsPlus, Re.pLitCI "tax", Re.pLazyAll,
    Re.pCap (Re.pClsPlus isPyDigit), wsStar, Re.pLit "%", Re.pLazyAll,
    Re.pAlt (Re.pLitCI "at") (Re.pLit "="), wsStar, moneyCap12, wsStar,
    Re.pLitCI "THB"]

/-- RE_WHT_HINT. -/
def patWhtHint : Re.Pat :=
  Re.pCap (Re.pAlts
    [Re.pCat [Re.pLitCI "withholding", wsPlus, Re.pLitCI "tax"],
     Re.pLit "หักภาษี",
     Re.pCat [Re.pLit "ณ", wsStar, Re.pLit "ที่จ่าย"],
     Re.pLitCI "wht"])

/-- _squash_all_ws. -/
def squashAllWs (s : String) : String :=
  if s = "" then "" else removeWS s

/-- SPX _extract_ref_code_anywhere. -/
def extractRefCodeAnywhereSpx (rawText : String) : String :=
  match Re.searchS patSpxRefFlex rawText with
  | some (_, caps, _) => cleanRefCode (Re.grp caps 1) (Re.grp caps 2)
  | none => ""

/-- _vendor_code_fallback_for_spx: the hardcoded client-aware fallback
table of spx.py. -/
def vendorCodeFallbackForSpx (clientTaxId : String) : String :=
  let cid := pyStrip clientTaxId
  if cid = "0105565027615" then "C00038"
  else if cid = "0105563022918" then "C01133"
  else if cid = "0105561071873" then "C00563"
  else "SPX"

/-- _get_vendor_code_safe: get_vendor_code when the mapping module is
available and a client tax id was given, otherwise the hardcoded
fallback; the source get_vendor_code call is total here, so the
exception arm of the source is unreachable. -/
def getVendorCodeSafe (clientTaxId vendorTaxId : String) : String :=
  if clientTaxId ≠ "" then
    let code := getVendorCode clientTaxId vendorTaxId "SPX"
    if code ≠ "" then code else vendorCodeFallbackForSpx clientTaxId
  else vendorCodeFallbackForSpx clientTaxId

/-- extract_spx_full_reference: glued full reference, no whitespace in
the output. -/
def extractSpxFullReference (text : String) (filename : String := "") :
    String :=
  let tNorm := normalizeText text
  let fNorm := normalizeText filename
  let tSq := squashAllWs tNorm
  match Re.searchS patSpxFullRef tNorm with
  | some (_, caps, _) =>
      squashAllWs
        (Re.grp caps 1 ++ cleanRefCode (Re.grp caps 2) (Re.grp caps 3))
  | none =>
  let doc :=
    match Re.searchS patSpxDocno tNorm with
    | some (_, caps, _) => Re.grp caps 1
    | none => ""
  if doc ≠ "" then
    let ref := extractRefCodeAnywhereSpx tNorm
    if ref ≠ "" then squashAllWs (doc ++ ref) else squashAllWs doc
  else
  match Re.searchS patSpxFullRef fNorm with
  | some (_, caps, _) =>
      squashAllWs
        (Re.grp caps 1 ++ cleanRefCode (Re.grp caps 2) (Re.grp caps 3))
  | none =>
  let doc :=
    match Re.searchS patSpxDocno fNorm with
    | some (_, caps, _) => Re.grp caps 1
    | none => ""
  if doc ≠ "" then
    let ref := extractRefCodeAnywhereSpx fNorm
    if ref ≠ "" then squashAllWs (doc ++ ref) else squashAllWs doc
  else
    match Re.searchS patSpxDocBare tSq, Re.searchS patSpxRefFlex tSq with
    | some (_, caps1, _), some (_, caps2, _) =>
        squashAllWs (Re.grp caps1 1 ++
          cleanRefCode (Re.grp caps2 1) (Re.grp caps2 2))
    | _, _ => ""

/-- _safe_float: comma removal, strip, float conversion, 0.0 on
failure; exact rationals stand in for the reachable two-decimal
values. -/
def safeFloatSpx (s : String) : ℚ :=
  match floatOpt (pyStrip (removeChar ',' s)) with
  | some q => q
  | none => 0

/-- SPX _money. -/
def moneySpx (s : String) : String := parseMoney s

/-- Result of _extract_amounts_spx_strict: total_ex_vat, vat_amount,
total_inc_vat, wht_amount_3pct, has_wht_3pct. -/
structure SpxAmounts where
  totalExVat : String := ""
  vatAmount : String := ""
  totalIncVat : String := ""
  whtAmount : String := ""
  hasWht : Bool := false
deriving DecidableEq, Repr

/-- Withholding channel of _extract_amounts_spx_strict: a separate
channel never merged into the totals. -/
def spxWhtChannel (t : String) : String × Bool :=
  let th :=
    match Re.searchS patSpxWhtTh t with
    | some (_, caps, _) =>
        let rate := pyStrip (Re.grp caps 1)
        let amt := moneySpx (Re.grp caps 2)
        if rate = "3" && amt ≠ "" then some amt else none
    | none => none
  match th with
  | some amt => (amt, true)
  | none =>
      match Re.searchS patSpxWhtEn t with
      | some (_, caps, _) =>
          let rate := pyStrip (Re.grp caps 1)
          let amt := moneySpx (Re.grp caps 2)
          if rate = "3" && amt ≠ "" then (amt, true) else ("", false)
      | none => ("", false)

/-- Guarded totals search of _extract_amounts_spx_strict: a candidate
found within 60 characters of a withholding hint is discarded. -/
def spxGuardedSearch (p : Re.Pat) (t : String) (win : Nat) : String :=
  match Re.searchS p t with
  | some (st, caps, en) =>
      let ctx := Re.sliceS t (st - win) (en + win)
      match Re.searchS patWhtHint ctx with
      | some _ => ""
      | none => moneySpx (Re.grp caps 1)
  | none => ""

/-- _extract_amounts_spx_strict. -/
def extractAmountsSpxStrict (t : String) : SpxAmounts :=
  let wht := spxWhtChannel t
  let whtAmount := wht.1
  let hasWht := wht.2
  let totalIncVat := spxGuardedSearch patTotalIncVat t 60
  let totalExVat := spxGuardedSearch patTotalExVat t 60
  let vatAmount := spxGuardedSearch patVatAmount t 60
  let totalIncVat :=
    if totalIncVat = "" then
      let cand := spxGuardedSearch patSpxTotalAmount t 80
      if cand ≠ "" && (whtAmount = "" || cand ≠ whtAmount) then cand
      else totalIncVat
    else totalIncVat
  let totalIncVat :=
    if totalIncVat = "" && totalExVat ≠ "" && vatAmount ≠ "" then
      let v := safeFloatSpx totalExVat + safeFloatSpx vatAmount
      if v > 0 then format2 v else totalIncVat
    else totalIncVat
  let totalExVat :=
    if totalExVat = "" && totalIncVat ≠ "" && vatAmount ≠ "" then
      let v := safeFloatSpx totalIncVat - safeFloatSpx vatAmount
      if v > 0 then format2 v else totalExVat
    else totalExVat
  if totalIncVat = "" then
    let am := extractAmounts t
    let candTotal := pyStrip am.total
    let candWht := pyStrip am.wht_amount
    let totalIncVat :=
      if candTotal ≠ "" && candTotal ≠ candWht then candTotal
      else totalIncVat
    let vatAmount :=
      if vatAmount = "" then
        let v := pyStrip am.vat
        if v ≠ "" then v else vatAmount
      else vatAmount
    let totalExVat :=
      if totalExVat = "" then
        let v := pyStrip am.subtotal
        if v ≠ "" then v else totalExVat
      else totalExVat
    { totalExVat := totalExVat, vatAmount := vatAmount,
      totalIncVat := totalIncVat, whtAmount := whtAmount, hasWht := hasWht }
  else
    { totalExVat := totalExVat, vatAmount := vatAmount,
      totalIncVat := totalIncVat, whtAmount := whtAmount, hasWht := hasWht }

/-- Vendor fields of extract_spx step 1. -/
def spStepED (clientTaxId vendorTax : String) (row : Row) : Row :=
  { row with E_tax_id_13 := vendorTax,
             D_vendor_code := getVendorCodeSafe clientTaxId vendorTax }

/-- Branch of extract_spx step 2. -/
def spStepF (t : String) (row : Row) : Row :=
  { row with F_branch_5 :=
      let b := findBranch t
      if b ≠ "" then b else "00000" }

/-- Glued reference of extract_spx step 3. -/
def spStepRef (fullRef : String) (row : Row) : Row :=
  if fullRef ≠ "" then
    { row with G_invoice_no := fullRef, C_reference := fullRef }
  else row

/-- Dates of extract_spx step 4. -/
def spStepDate (date : String) (row : Row) : Row :=
  if date ≠ "" then
    { row with B_doc_date := date, H_invoice_date := date,
               I_tax_purchase_date := date }
  else row

/-- Steps 1 to 4 of extract_spx: vendor, branch, glued reference,
dates. -/
def extractSpxHead (text : String) (clientTaxId : String := "")
    (filename : String := "") : Row :=
  let t := normalizeText text
  let vendorTax :=
    let v := findVendorTaxId t "SPX"
    if v ≠ "" then v else VENDOR_SPX
  spStepDate (findBestDate t)
    (spStepRef (extractSpxFullReference t filename)
      (spStepF t (spStepED clientTaxId vendorTax baseRowDict)))

/-- Quantity of extract_spx step 5. -/
def spStepM (row : Row) : Row := { row with M_qty := "1" }

/-- Primary amount mapping of extract_spx step 5: the included-VAT
total into both money fields, stable zero fallback otherwise. -/
def spStepAmounts (a : SpxAmounts) (row : Row) : Row :=
  if a.totalIncVat ≠ "" then
    { row with N_unit_price := a.totalIncVat,
               R_paid_amount := a.totalIncVat }
  else
    { row with
        N_unit_price :=
          if row.N_unit_price ≠ "" then row.N_unit_price else "0",
        R_paid_amount :=
          if row.R_paid_amount ≠ "" then row.R_paid_amount else "0" }

/-- Price type and VAT rate of extract_spx step 5. -/
def spStepJO (row : Row) : Row :=
  { row with J_price_type := "1", O_vat_rate := "7%" }

/-- Withholding mapping of extract_spx step 6, driven by
WHT_RATE_MODE. -/
def spStepWht (a : SpxAmounts) (row : Row) : Row :=
  if pyUpper WHT_RATE_MODE = "ALWAYS" then
    { row with P_wht := "3%", S_pnd := "53" }
  else
    { row with P_wht := if a.hasWht then "3%" else "0",
               S_pnd := if a.hasWht then "53" else "" }

/-- Payment method, description, group and blank note of extract_spx
steps 7 to 9. -/
def spStepFixed2 (row : Row) : Row :=
  { row with Q_payment_method := "หักจากยอดขาย",
             L_description := "Marketplace Expense",
             U_group := "Marketplace Expense", T_note := "" }

/-- First reference sync of extract_spx step 10. -/
def spStepSync1 (row : Row) : Row :=
  if row.C_reference = "" && row.G_invoice_no ≠ "" then
    { row with C_reference := row.G_invoice_no }
  else row

/-- Second reference sync of extract_spx step 10. -/
def spStepSync2 (row : Row) : Row :=
  if row.G_invoice_no = "" && row.C_reference ≠ "" then
    { row with G_invoice_no := row.C_reference }
  else row

/-- Blank account of extract_spx. -/
def spStepK (row : Row) : Row := { row with K_account := "" }

/-- Steps 5 to 10 of extract_spx on the normalized text: strict amount
mapping, withholding policy, fixed fields, reference sync. -/
def extractSpxTail (t : String) (row : Row) : Row :=
  let a := extractAmountsSpxStrict t
  formatPeakRow
    (spStepK (spStepSync2 (spStepSync1 (spStepFixed2
      (spStepWht a (spStepJO (spStepAmounts a (spStepM row))))))))

/-- extract_spx: the SPX extractor, PEAK A-U output.  The try body is
total in this embedding, so the fail-safe except arm of the source
(extractSpxFailsafeRow below) is unreachable. -/
def extractSpx (text : String) (clientTaxId : String := "")
    (filename : String := "") : Row :=
  extractSpxTail (normalizeText text)
    (extractSpxHead text clientTaxId filename)

/-- The fail-safe row of the except arm of extract_spx, kept for
completeness; unreachable in a total embedding. -/
def extractSpxFailsafeRow (clientTaxId : String) : Row :=
  formatPeakRow
    { baseRowDict with
        D_vendor_code := vendorCodeFallbackForSpx clientTaxId,
        E_tax_id_13 := VENDOR_SPX, F_branch_5 := "00000", M_qty := "1",
        J_price_type := "1", O_vat_rate := "7%", P_wht := "0", S_pnd := "",
        N_unit_price := "0", R_paid_amount := "0",
        Q_payment_method := "หักจากยอดขาย", U_group := "Marketplace Expense",
        L_description := "Marketplace Expense", T_note := "",
        K_account := "" }

end Peak

namespace Peak

/-!  utils/validators.py  -/

/-- Gregorian leap year, datetime rules. -/
def isLeap (y : Nat) : Bool := (y % 4 = 0 && y % 100 ≠ 0) || y % 400 = 0

def daysInMonth (y m : Nat) : Nat :=
  if m = 2 then (if isLeap y then 29 else 28)
  else if m = 4 || m = 6 || m = 9 || m = 11 then 30
  else 31

/-- validate_yyyymmdd: empty passes; otherwise eight digits making a
real calendar date (datetime.strptime with percent-Y percent-m
percent-d, years 1..9999). -/
def validateYyyymmdd (v : String) : Bool :=
  if v = "" then true
  else if !(Re.fullmatchDigits 8 v) then false
  else
    let y := natOfDigits (v.data.take 4)
    let m := natOfDigits ((v.data.drop 4).take 2)
    let d := natOfDigits (v.data.drop 6)
    1 ≤ y && y ≤ 9999 && 1 ≤ m && m ≤ 12 && 1 ≤ d && d ≤ daysInMonth y m

/-- validate_branch5. -/
def validateBranch5 (v : String) : Bool :=
  if v = "" then true else Re.fullmatchDigits 5 v

/-- validate_tax13. -/
def validateTax13 (v : String) : Bool :=
  if v = "" then true else Re.fullmatchDigits 13 v

/-- validate_price_type. -/
def validatePriceType (v : String) : Bool :=
  v = "1" || v = "2" || v = "3" || v = ""

/-- validate_vat_rate. -/
def validateVatRate (v : String) : Bool :=
  if v = "" then true
  else if pyUpper v = "NO" then true
  else
    match matchFull
        (Re.pCat [Re.pClsRange isPyDigit 1 2, Re.pOpt (Re.pLit "%")]) v with
    | some _ => true
    | none => false

end Peak

namespace Peak

/-!  services/job_worker.py: pure helpers.  -/

def pyLower (s : String) : String := ⟨s.data.map Char.toLower⟩

/-- CLIENT_TAX_IDS in insertion order. -/
def CLIENT_TAX_IDS : List (String × String) :=
  [("RABBIT", "0105561071873"), ("SHD", "0105563022918"),
   ("TOPONE", "0105565027615")]

/-- TAXID_TO_COMPANY, the inverted dictionary. -/
def TAXID_TO_COMPANY : List (String × String) :=
  CLIENT_TAX_IDS.map (fun kv => (kv.2, kv.1))

/-- _safe_str on the string-valued dictionary entries of this
embedding (None and missing behave as the empty string). -/
def safeStr (v : String) : String := pyStrip v

/-- _digits_only of job_worker.py. -/
def digitsOnlyW (s : String) : String := digitsOnlyS s

/-- _clean_money_str: strip, then remove the baht sign, the substring
THB and commas, then strip again. -/
def cleanMoneyW (v : String) : String :=
  let s := safeStr v
  if s = "" then ""
  else pyStrip (removeChar ',' (removeSub "THB" (removeChar '฿' s)))

/-- Worker _compact_ref: _safe_str, then remove every whitespace
character. -/
def compactRefW (v : String) : String :=
  let s := safeStr v
  if s = "" then "" else removeWS s

/-- Normalized job filter configuration, the stable cfg shape of
_safe_cfg in job_service.py. -/
structure Cfg where
  clientTags : List String := []
  clientTaxIds : List String := []
  platforms : List String := []
deriving DecidableEq, Repr

/-- _detect_client_tax_id: text first, then a single selected client
tax id from cfg, then filename hints. -/
def detectClientTaxId (text : String) (filename : String := "")
    (cfg : Cfg := {}) : String :=
  match CLIENT_TAX_IDS.find? (fun kv => hasSub kv.2 text) with
  | some kv => kv.2
  | none =>
      let fromCfg :=
        match cfg.clientTaxIds with
        | [tax] => if pyStrip tax ≠ "" then some (pyStrip tax) else none
        | _ => none
      match fromCfg with
      | some tax => tax
      | none =>
          let fn := pyUpper filename
          match CLIENT_TAX_IDS.find? (fun kv => hasSub kv.1 fn) with
          | some kv => kv.2
          | none => ""

/-- _company_from_tax_id. -/
def companyFromTaxId (clientTaxId : String) (filename : String := "") :
    String :=
  let byTax :=
    if clientTaxId ≠ "" then
      match TAXID_TO_COMPANY.find? (fun kv => kv.1 = clientTaxId) with
      | some kv => some kv.2
      | none => none
    else none
  match byTax with
  | some c => c
  | none =>
      let fn := pyUpper filename
      match ["RABBIT", "SHD", "TOPONE"].find? (fun k => hasSub k fn) with
      | some k => k
      | none => ""

/-- _detect_platform_hint_from_filename. -/
def detectPlatformHintFromFilename (filename : String) : String :=
  let fn := pyUpper filename
  if hasSub "SPX" fn || hasSub "RCSPX" fn || hasSub "SHOPEE EXPRESS" fn
      || hasSub "SHOPEE-EXPRESS" fn then "SPX"
  else if hasSub "SHOPEE" fn then "SHOPEE"
  else if hasSub "LAZADA" fn || hasSub "LAZ" fn then "LAZADA"
  else if hasSub "TIKTOK" fn || hasSub "TTS" fn || hasSub "TTSHOP" fn then
    "TIKTOK"
  else if hasSub "FACEBOOK" fn || hasSub "META" fn || hasSub "GOOGLE" fn
      || hasSub "ADS" fn then "ADS"
  else if hasSub "HASHTAG" fn then "HASHTAG"
  else ""

/-- _platform_upper. -/
def platformUpper (platform : String) (filename : String := "") : String :=
  let p := pyLower (pyStrip platform)
  if p = "shopee" || p = "spx" || p = "lazada" || p = "tiktok" || p = "ads"
      || p = "facebook" || p = "hashtag" then pyUpper p
  else
    let fh := detectPlatformHintFromFilename filename
    if fh ≠ "" then fh
    else pyUpper (if platform ≠ "" then platform else "UNKNOWN")

/-- _cfg_mismatch: the filter-mismatch decision with strict mode.
Returns the pair of the mismatch flag and the reason string. -/
def cfgMismatch (allowedCompanies allowedPlatforms : List String)
    (strictMode : Bool) (company platformU : String) : Bool × String :=
  let c := pyStrip (pyUpper company)
  let p := pyStrip (pyUpper platformU)
  let hasCompanyFilter := !allowedCompanies.isEmpty
  let hasPlatformFilter := !allowedPlatforms.isEmpty
  if !hasCompanyFilter && !hasPlatformFilter then (false, "")
  else
    let companyVerdict : Option (Bool × String) :=
      if hasCompanyFilter then
        if c ≠ "" then
          if !allowedCompanies.contains c then
            some (true, "company=" ++ c ++ " not in allowed companies ("
              ++ String.intercalate "," allowedCompanies ++ ")")
          else none
        else
          if strictMode then
            some (true, "company=unknown (strict mode, allowed: "
              ++ String.intercalate "," allowedCompanies ++ ")")
          else none
      else none
    match companyVerdict with
    | some v => v
    | none =>
        if hasPlatformFilter then
          if p ≠ "" && p ≠ "UNKNOWN" then
            if !allowedPlatforms.contains p then
              (true, "platform=" ++ p ++ " not in allowed platforms ("
                ++ String.intercalate "," allowedPlatforms ++ ")")
            else (false, "")
          else
            if strictMode then
              (true, "platform=unknown (strict mode, allowed: "
                ++ String.intercalate "," allowedPlatforms ++ ")")
            else (false, "")
        else (false, "")

/-- _revalidate. -/
def revalidate (row : Row) : List String :=
  let errs : List (Bool × String) :=
    [(!validateYyyymmdd row.B_doc_date, "วันที่เอกสารรูปแบบไม่ถูกต้อง"),
     (row.H_invoice_date ≠ "" && !validateYyyymmdd row.H_invoice_date,
      "วันที่ใบกำกับฯรูปแบบไม่ถูกต้อง"),
     (row.I_tax_purchase_date ≠ ""
        && !validateYyyymmdd row.I_tax_purchase_date,
      "วันที่ภาษีซื้อรูปแบบไม่ถูกต้อง"),
     (row.F_branch_5 ≠ "" && !validateBranch5 row.F_branch_5,
      "เลขสาขาไม่ใช่ 5 หลัก"),
     (row.E_tax_id_13 ≠ "" && !validateTax13 row.E_tax_id_13,
      "เลขภาษีไม่ใช่ 13 หลัก"),
     (row.J_price_type ≠ "" && !validatePriceType row.J_price_type,
      "ประเภทราคาไม่ถูกต้อง"),
     (row.O_vat_rate ≠ "" && !validateVatRate row.O_vat_rate,
      "อัตราภาษีไม่ถูกต้อง")]
  (errs.filter (fun e => e.1)).map (fun e => e.2)

/-- The per-key date normalization of the _normalize_row_fields date
loop. -/
def normDateField (s : String) : String :=
  if s ≠ "" then pyTake 8 (digitsOnlyW (safeStr s)) else safeStr s

/-- Tax-id normalization of _normalize_row_fields: digits only,
truncated to 13. -/
def normTax13 (x : String) : String := pyTake 13 (digitsOnlyW (safeStr x))

/-- Branch normalization of _normalize_row_fields: digits only,
zero-filled to five and truncated, default 00000. -/
def normBranch (x : String) : String :=
  let br := digitsOnlyW (safeStr x)
  if br ≠ "" then pyTake 5 (pyZfill 5 br) else "00000"

/-- Price-type coercion of _normalize_row_fields. -/
def normPriceType (x : String) : String :=
  let j := safeStr x
  if j = "1" || j = "2" || j = "3" then j
  else if j ≠ "" then j else "1"

/-- VAT-rate coercion of _normalize_row_fields. -/
def normVatRate (x : String) : String :=
  let o := pyUpper (safeStr x)
  if o = "NO" || o = "0" || o = "NONE" then "NO"
  else if o = "" || hasSub "7" o then "7%" else o

/-- Quantity default of _normalize_row_fields. -/
def normQty (x : String) : String :=
  let m0 := safeStr (if x ≠ "" then x else "1")
  if m0 ≠ "" then m0 else "1"

/-- Python `a or b` on strings. -/
def moneyOr (a b : String) : String := if a ≠ "" then a else b

/-- Money cleanup with the trailing `or "0"` of
_normalize_row_fields. -/
def normMoney (x : String) : String :=
  let c := cleanMoneyW x
  if c ≠ "" then c else "0"

/-- The reference sync pair of _normalize_row_fields: the second
condition reads the already-synced first component, as in the
source. -/
def syncRefs (c0 g0 : String) : String × String :=
  let c1 := if safeStr c0 = "" && safeStr g0 ≠ "" then safeStr g0 else c0
  let g1 := if safeStr g0 = "" && safeStr c1 ≠ "" then safeStr c1 else g0
  (c1, g1)

/-- _normalize_row_fields: the row normalizer.  The sequential dict
mutations of the source are transcribed into one functional update;
the paid-amount step reads the already-updated unit price and the
reference sync reads the already-compacted (then synced) references,
exactly as in the source order. -/
def normalizeRowFields (row : Row) (seq : Nat) : Row :=
  let n := normMoney
    (moneyOr row.N_unit_price (moneyOr row.R_paid_amount "0"))
  let r := normMoney (moneyOr row.R_paid_amount (moneyOr n "0"))
  let cg := syncRefs (compactRefW row.C_reference)
    (compactRefW row.G_invoice_no)
  { row with
      A_seq := .int seq,
      B_doc_date := normDateField row.B_doc_date,
      H_invoice_date := normDateField row.H_invoice_date,
      I_tax_purchase_date := normDateField row.I_tax_purchase_date,
      E_tax_id_13 := normTax13 row.E_tax_id_13,
      F_branch_5 := normBranch row.F_branch_5,
      J_price_type := normPriceType row.J_price_type,
      O_vat_rate := normVatRate row.O_vat_rate,
      M_qty := normQty row.M_qty,
      N_unit_price := n, R_paid_amount := r,
      P_wht := "",
      C_reference := cg.1, G_invoice_no := cg.2,
      A_company_name := safeStr row.A_company_name,
      D_vendor_code := safeStr row.D_vendor_code,
      K_account := safeStr row.K_account,
      L_description := safeStr row.L_description,
      Q_payment_method := safeStr row.Q_payment_method,
      S_pnd := safeStr row.S_pnd,
      T_note := safeStr row.T_note,
      U_group := safeStr row.U_group }

/-- _should_call_ai. -/
def shouldCallAi (errors : List String) (row : Row) : Bool :=
  let paid := safeStr row.R_paid_amount
  let criticalMissing :=
    safeStr row.B_doc_date = "" || safeStr row.L_description = ""
      || paid = "" || paid = "0" || paid = "0.0" || paid = "0.00"
  !errors.isEmpty || criticalMissing

end Peak

namespace Peak

/-!  services/job_service.py: the in-memory job record and its
mutators (timestamps and uuid identity are irrelevant to the settled
properties and not modelled). -/

/-- A payload tuple component (Python values stored in _payloads). -/
inductive PyV where
  | pstr (s : String)
  | pbytes (b : String)
  | pmeta
deriving DecidableEq, Repr

def PyV.asStr : PyV → String
  | .pstr s => s
  | .pbytes b => b
  | .pmeta => ""

structure FileRec where
  filename : String := ""
  platform : String := "unknown"
  company : String := ""
  clientTaxId : String := ""
  state : String := "queued"
  message : String := ""
  rowsCount : Nat := 0
deriving DecidableEq, Repr

structure Job where
  state : String := "queued"
  totalFiles : Nat := 0
  processedFiles : Nat := 0
  okFiles : Nat := 0
  reviewFiles : Nat := 0
  errorFiles : Nat := 0
  cfg : Cfg := {}
  files : List FileRec := []
  payloads : List (List PyV) := []
  rows : List Row := []
  cancel : Bool := false
  lastError : String := ""
deriving DecidableEq, Repr

/-- _norm_token. -/
def normToken (s : String) : String := pyUpper (pyStrip s)

/-- Keep-first-occurrence deduplication of _norm_list. -/
def dedupKeep (xs : List String) : List String :=
  xs.foldl (fun acc x => if acc.contains x then acc else acc ++ [x]) []

/-- _norm_list on a list input. -/
def normList (xs : List String) : List String :=
  dedupKeep ((xs.map normToken).filter (fun t => t ≠ ""))

/-- _safe_cfg: the stable cfg shape (note that strictMode is not among
its keys, so a strictMode flag given at job creation is dropped). -/
def safeCfg (cfg : Cfg) : Cfg :=
  { clientTags := normList cfg.clientTags
    clientTaxIds := (cfg.clientTaxIds.map pyStrip).filter (fun s => s ≠ "")
    platforms := normList cfg.platforms }

/-- create_job. -/
def createJob (cfg : Cfg := {}) : Job :=
  { state := "queued", cfg := safeCfg cfg }

/-- add_file: append one payload 4-tuple (filename, content_type,
content, meta) and one frontend file record. -/
def addFile (j : Job) (filename contentType content : String) : Job :=
  let filename := if pyStrip filename ≠ "" then pyStrip filename else "file"
  let contentType :=
    if pyStrip contentType ≠ "" then pyStrip contentType
    else "application/octet-stream"
  if j.state = "processing" || j.state = "done" then j
  else
    { j with
        totalFiles := j.totalFiles + 1
        payloads := j.payloads ++
          [[PyV.pstr filename, PyV.pstr contentType, PyV.pbytes content,
            PyV.pmeta]]
        files := j.files ++ [{ filename := filename }] }

/-- start_processing (the spawned thread itself is the runJob call
below). -/
def startProcessing (j : Job) (cfg : Option Cfg := none) : Job :=
  let j := match cfg with
    | some c => { j with cfg := safeCfg c }
    | none => j
  if j.state = "processing" || j.state = "done" || j.state = "cancelled"
  then j
  else { j with state := "processing", cancel := false, lastError := "" }

/-- append_rows without an explicit status argument (the worker always
calls it that way, so no status stamping occurs). -/
def appendRows (j : Job) (rows : List Row) : Job :=
  if rows = [] then j else { j with rows := j.rows ++ rows }

/-- A file-record patch dictionary. -/
structure FilePatch where
  state : Option String := none
  platform : Option String := none
  company : Option String := none
  message : Option String := none
  rowsCount : Option Nat := none
deriving Repr

def applyFilePatch (f : FileRec) (p : FilePatch) : FileRec :=
  { f with
      state := p.state.getD f.state
      platform := p.platform.getD f.platform
      company := p.company.getD f.company
      message := p.message.getD f.message
      rowsCount := p.rowsCount.getD f.rowsCount }

/-- update_file: apply a patch when the index is in range. -/
def updateFile (j : Job) (idx : Nat) (p : FilePatch) : Job :=
  match j.files.get? idx with
  | some f => { j with files := j.files.set idx (applyFilePatch f p) }
  | none => j

/-- update_job restricted to the counter keys the worker patches. -/
def updateJobCounters (j : Job) (processed ok review err : Nat) : Job :=
  { j with processedFiles := processed, okFiles := ok,
           reviewFiles := review, errorFiles := err }

/-- update_job restricted to the state key: a cancelled job never has
its state overwritten. -/
def updateJobState (j : Job) (st : String) : Job :=
  if j.state = "cancelled" then j else { j with state := st }

end Peak

namespace Peak

/-!  services/job_worker.py: the per-file pipeline and the job loop.
The external collaborators (text acquisition via pdfplumber/OCR, the
AI patch call, and the wallet resolution whose call site is
unreachable for every settled claim) are parameters of the worker, so
every theorem below holds for every collaborator behavior. -/

structure Collab where
  getText : String → String → String → String
  aiFill : String → String → Row → String → List (String × String)
  walletCode : String → String → String → String → String

/-- Parameter names of extract_row_from_text (extract_service.py line
82): positional text and keyword filename. -/
def extractRowFromTextParams : List String := ["text", "filename"]

/-- Keyword argument names of the worker call site (job_worker.py
lines 592..597). -/
def workerExtractCallKwargs : List String := ["filename", "client_tax_id", "cfg"]

/-- Python call binding of the worker call to extract_row_from_text:
one positional argument plus the keyword arguments above; a keyword
name absent from the parameter list raises TypeError before the body
runs.  The body (classifier dispatch over extractors, partly absent
from src) is a collaborator parameter, irrelevant because the binding
check fails for this call site. -/
def callExtractRowFromText
    (body : String → String → String × Row × List String)
    (text filename : String) (_clientTaxId : String) (_cfg : Cfg) :
    Except String (String × Row × List String) :=
  match workerExtractCallKwargs.find?
      (fun k => !extractRowFromTextParams.contains k) with
  | some k =>
      .error ("TypeError: extract_row_from_text() got an unexpected keyword argument " ++ k)
  | none => .ok (body text filename)

def nonDigitCls (c : Char) : Bool := !isPyDigit c

/-- First pattern of RE_SELLER_ID_HINTS. -/
def patSellerHint1 : Re.Pat :=
  Re.pCat [Re.pWordB,
    Re.pAlts
      [Re.pLitCI "seller_id",
       Re.pCat [Re.pLitCI "seller", wsStar, Re.pLitCI "id"],
       Re.pLitCI "shop_id",
       Re.pCat [Re.pLitCI "shop", wsStar, Re.pLitCI "id"],
       Re.pLitCI "merchant_id",
       Re.pCat [Re.pLitCI "merchant", wsStar, Re.pLitCI "id"]],
    Re.pWordB, Re.pClsRange nonDigitCls 0 20,
    Re.pCap (Re.pClsRange isPyDigit 5 20)]

/-- Second pattern of RE_SELLER_ID_HINTS. -/
def patSellerHint2 : Re.Pat :=
  Re.pCat
    [Re.pAlts [Re.pLit "รหัสร้าน", Re.pLit "ไอดีร้าน",
       Re.pLit "รหัสผู้ขาย", Re.pLit "ร้านค้า"],
     Re.pClsRange nonDigitCls 0 20, Re.pCap (Re.pClsRange isPyDigit 5 20)]

/-- RE_ANY_LONG_DIGITS (only the first findall hit is consumed). -/
def patAnyLongDigits : Re.Pat :=
  Re.pCat [Re.pWordB, Re.pCap (Re.pClsRange isPyDigit 6 20), Re.pWordB]

/-- Unbounded digit run 6..20 of the filename fallback. -/
def patDigits620 : Re.Pat := Re.pCap (Re.pClsRange isPyDigit 6 20)

/-- _detect_seller_id. -/
def detectSellerId (text : String) (filename : String := "") : String :=
  match Re.searchS patSellerHint1 text with
  | some (_, caps, _) => safeStr (Re.grp caps 1)
  | none =>
  match Re.searchS patSellerHint2 text with
  | some (_, caps, _) => safeStr (Re.grp caps 1)
  | none =>
  match Re.searchS patAnyLongDigits text with
  | some (_, caps, _) => Re.grp caps 1
  | none =>
  match Re.searchS patDigits620 filename with
  | some (_, caps, _) => Re.grp caps 1
  | none => ""

/-- os.path.basename. -/
def pyBasename (s : String) : String :=
  ⟨(s.data.reverse.takeWhile (fun c => c ≠ '/' && c ≠ '\\')).reverse⟩

/-- Stem of os.path.splitext: drop a trailing extension after the last
dot, when the dot is not the leading character. -/
def pySplitextStem (s : String) : String :=
  let l := s.data
  let ext := l.reverse.takeWhile (fun c => c ≠ '.')
  if ext.length + 1 ≤ l.length && ext.length + 1 < l.length + 1
      && l.length - (ext.length + 1) > 0 then
    ⟨l.take (l.length - (ext.length + 1))⟩
  else if ext.length < l.length then ⟨l.take (l.length - (ext.length + 1))⟩
  else s

/-- The partial_keys list sent to the AI collaborator. -/
def partialKeys : List String :=
  ["B_doc_date", "C_reference", "D_vendor_code", "E_tax_id_13",
   "F_branch_5", "G_invoice_no", "H_invoice_date", "I_tax_purchase_date",
   "J_price_type", "K_account", "L_description", "M_qty", "N_unit_price",
   "O_vat_rate", "Q_payment_method", "R_paid_amount", "S_pnd", "T_note",
   "U_group"]

/-- Dictionary read of a canonical string key (A_seq excluded: the AI
merge never touches it). -/
def rowGet (r : Row) (k : String) : String :=
  if k = "A_company_name" then r.A_company_name
  else if k = "B_doc_date" then r.B_doc_date
  else if k = "C_reference" then r.C_reference
  else if k = "D_vendor_code" then r.D_vendor_code
  else if k = "E_tax_id_13" then r.E_tax_id_13
  else if k = "F_branch_5" then r.F_branch_5
  else if k = "G_invoice_no" then r.G_invoice_no
  else if k = "H_invoice_date" then r.H_invoice_date
  else if k = "I_tax_purchase_date" then r.I_tax_purchase_date
  else if k = "J_price_type" then r.J_price_type
  else if k = "K_account" then r.K_account
  else if k = "L_description" then r.L_description
  else if k = "M_qty" then r.M_qty
  else if k = "N_unit_price" then r.N_unit_price
  else if k = "O_vat_rate" then r.O_vat_rate
  else if k = "P_wht" then r.P_wht
  else if k = "Q_payment_method" then r.Q_payment_method
  else if k = "R_paid_amount" then r.R_paid_amount
  else if k = "S_pnd" then r.S_pnd
  else if k = "T_note" then r.T_note
  else if k = "U_group" then r.U_group
  else ""

/-- Dictionary write of a canonical string key. -/
def rowSet (r : Row) (k v : String) : Row :=
  if k = "A_company_name" then { r with A_company_name := v }
  else if k = "B_doc_date" then { r with B_doc_date := v }
  else if k = "C_reference" then { r with C_reference := v }
  else if k = "D_vendor_code" then { r with D_vendor_code := v }
  else if k = "E_tax_id_13" then { r with E_tax_id_13 := v }
  else if k = "F_branch_5" then { r with F_branch_5 := v }
  else if k = "G_invoice_no" then { r with G_invoice_no := v }
  else if k = "H_invoice_date" then { r with H_invoice_date := v }
  else if k = "I_tax_purchase_date" then { r with I_tax_purchase_date := v }
  else if k = "J_price_type" then { r with J_price_type := v }
  else if k = "K_account" then { r with K_account := v }
  else if k = "L_description" then { r with L_description := v }
  else if k = "M_qty" then { r with M_qty := v }
  else if k = "N_unit_price" then { r with N_unit_price := v }
  else if k = "O_vat_rate" then { r with O_vat_rate := v }
  else if k = "P_wht" then { r with P_wht := v }
  else if k = "Q_payment_method" then { r with Q_payment_method := v }
  else if k = "R_paid_amount" then { r with R_paid_amount := v }
  else if k = "S_pnd" then { r with S_pnd := v }
  else if k = "T_note" then { r with T_note := v }
  else if k = "U_group" then { r with U_group := v }
  else r

/-- Dictionary write of an underscore metadata key (the AI merge
copies such keys through verbatim; an unmodelled underscore key is
dropped, and _errors is a list in the worker, so an AI string under
that key is not representable and is dropped as well). -/
def rowSetMeta (r : Row) (k v : String) : Row :=
  if k = "_status" then { r with statusTag := v }
  else if k = "_source_file" then { r with srcFile := v }
  else if k = "_platform" then { r with platformTag := v }
  else if k = "_client_tax_id" then { r with clientTaxTag := v }
  else if k = "_seller_id" then { r with sellerTag := v }
  else r

/-- Empty-or-zero test of the AI fill policy. -/
def emptyOrZero (s : String) : Bool :=
  s = "" || s = "0" || s = "0.0" || s = "0.00"

/-- One AI patch entry applied under the merge policy of the worker
(lines 676..698). -/
def applyAiEntry (aiOnlyFillEmpty : Bool) (r : Row) (kv : String × String) :
    Row :=
  let k := kv.1
  let v := kv.2
  if k = "" then r
  else if pyStartsWith "_" k then rowSetMeta r k v
  else if k = "P_wht" then r
  else
    let vStr := safeStr v
    if vStr = "" then r
    else if aiOnlyFillEmpty then
      if emptyOrZero (safeStr (rowGet r k)) then rowSet r k vStr else r
    else
      if !r.errorsTag.isEmpty then rowSet r k vStr
      else if emptyOrZero (safeStr (rowGet r k)) then rowSet r k vStr
      else r

def applyAiPatch (aiOnlyFillEmpty : Bool) (r : Row)
    (patch : List (String × String)) : Row :=
  patch.foldl (applyAiEntry aiOnlyFillEmpty) r

/-- row.update(base_row): the extractor row overwrites the canonical
keys of base_row_dict (the 21 PEAK keys, including the A_seq that
base_row_dict carries as an empty string). -/
def updateFromPeak (w : Row) (p : Row) : Row :=
  { w with
      A_seq := p.A_seq, B_doc_date := p.B_doc_date,
      C_reference := p.C_reference, D_vendor_code := p.D_vendor_code,
      E_tax_id_13 := p.E_tax_id_13, F_branch_5 := p.F_branch_5,
      G_invoice_no := p.G_invoice_no, H_invoice_date := p.H_invoice_date,
      I_tax_purchase_date := p.I_tax_purchase_date,
      J_price_type := p.J_price_type, K_account := p.K_account,
      L_description := p.L_description, M_qty := p.M_qty,
      N_unit_price := p.N_unit_price, O_vat_rate := p.O_vat_rate,
      P_wht := p.P_wht, Q_payment_method := p.Q_payment_method,
      R_paid_amount := p.R_paid_amount, S_pnd := p.S_pnd,
      T_note := p.T_note, U_group := p.U_group }

/-- _append_and_update_file. -/
def appendAndUpdateFile (j : Job) (idx : Nat) (rows : List Row)
    (state platform company message : String) : Job :=
  updateFile (appendRows j rows) idx
    { state := some state, platform := some platform,
      company := some company, message := some message,
      rowsCount := some rows.length }

/-- Outcome of one file iteration: the mutated job, the next sequence
number and the counter increments. -/
structure FileOutcome where
  job : Job
  seq : Nat
  okInc : Nat := 0
  reviewInc : Nat := 0
  errInc : Nat := 0
deriving Repr

end Peak

namespace Peak

/-- The no-text branch of the per-file pipeline (job_worker.py lines
545..589): a minimal NEEDS_REVIEW row. -/
def noTextBranch (allowedCompanies allowedPlatforms : List String)
    (strictMode : Bool) (j : Job) (idx seq : Nat)
    (filename company : String) : FileOutcome :=
  let platformU :=
    let h := detectPlatformHintFromFilename filename
    if h ≠ "" then h else "UNKNOWN"
  let mis := cfgMismatch allowedCompanies allowedPlatforms strictMode
    company platformU
  let rowMin : Row :=
    { A_seq := .int seq, A_company_name := company, srcFile := filename,
      platformTag := platformU, statusTag := "NEEDS_REVIEW",
      errorsTag := ["ไม่พบข้อความจากเอกสาร"] ++
        (if mis.1 then ["ไม่ตรง filter: " ++ mis.2] else []) }
  let rowMin := normalizeRowFields rowMin seq
  let rowsOut := [rowMin]
  let message := "ไม่พบข้อความ" ++ (if mis.1 then " + " ++ mis.2 else "")
  let j := appendAndUpdateFile j idx rowsOut "needs_review" platformU
    company message
  { job := j, seq := seq + 1, reviewInc := 1 }

/-- The per-file except handler (job_worker.py lines 748..778): always
append one ERROR row. -/
def errorBranch (j : Job) (idx seq : Nat)
    (filename company platformU e : String) : FileOutcome :=
  let errRow : Row :=
    { A_seq := .int seq,
      A_company_name := if company ≠ "" then company else "",
      srcFile := filename,
      platformTag := if platformU ≠ "" then platformU else "UNKNOWN",
      statusTag := "ERROR", errorsTag := [e] }
  let errRow := normalizeRowFields errRow seq
  let j := appendRows j [errRow]
  let j := updateFile j idx
    { state := some "error",
      platform := some (if platformU ≠ "" then platformU else "UNKNOWN"),
      company := some (if company ≠ "" then company else ""),
      message := some ("Error: " ++ e), rowsCount := some 1 }
  { job := j, seq := seq + 1, errInc := 1 }

/-- The successful-extraction continuation (job_worker.py lines
599..746); unreachable in the composed worker because the extract call
binding fails, embedded for completeness. -/
def postExtract (collab : Collab)
    (allowedCompanies allowedPlatforms : List String) (strictMode : Bool)
    (aiOnlyFillEmpty : Bool) (j : Job) (idx seq : Nat)
    (filename text clientTaxId company : String)
    (extracted : String × Row × List String) : FileOutcome :=
  let platform := extracted.1
  let baseRow := extracted.2.1
  let errors := extracted.2.2
  let platformU := platformUpper platform filename
  let mis := cfgMismatch allowedCompanies allowedPlatforms strictMode
    company platformU
  let sellerId := detectSellerId text filename
  let shopNameHint := pySplitextStem (pyBasename filename)
  let walletCode := collab.walletCode clientTaxId sellerId shopNameHint text
  let row : Row :=
    { A_seq := .int seq, A_company_name := company, srcFile := filename,
      platformTag := platformU, clientTaxTag := clientTaxId,
      sellerTag := sellerId, errorsTag := errors }
  let row := updateFromPeak row baseRow
  let row :=
    if walletCode ≠ "" then { row with Q_payment_method := walletCode }
    else if platformU = "SHOPEE" then
      { row with errorsTag :=
          row.errorsTag ++ ["ไม่พบ wallet code (Q_payment_method)"] }
    else row
  let row := normalizeRowFields row seq
  let row :=
    if shouldCallAi row.errorsTag row then
      applyAiPatch aiOnlyFillEmpty row
        (collab.aiFill text platformU row filename)
    else row
  let row :=
    if walletCode ≠ "" then { row with Q_payment_method := walletCode }
    else row
  let row := { row with P_wht := "" }
  let row := normalizeRowFields row seq
  let errors2 := revalidate row
  let merged := (row.errorsTag ++ errors2).foldl
    (fun acc e => if e ≠ "" && !acc.contains e then acc ++ [e] else acc) []
  let row := { row with errorsTag := merged }
  if mis.1 then
    let row := { row with statusTag := "NEEDS_REVIEW",
                          errorsTag := row.errorsTag ++
                            ["ไม่ตรง filter: " ++ mis.2] }
    let j := appendAndUpdateFile j idx [row] "needs_review" platformU
      company mis.2
    { job := j, seq := seq + 1, reviewInc := 1 }
  else if !merged.isEmpty then
    let row := { row with statusTag := "NEEDS_REVIEW" }
    let j := appendAndUpdateFile j idx [row] "needs_review" platformU
      company "มีช่องที่ต้องตรวจสอบ"
    { job := j, seq := seq + 1, reviewInc := 1 }
  else
    let row := { row with statusTag := "OK" }
    let j := appendAndUpdateFile j idx [row] "done" platformU company ""
    { job := j, seq := seq + 1, okInc := 1 }

/-- One iteration of the per-file loop (job_worker.py lines 515..785):
text acquisition through the collaborator, client and company
detection, then the no-text branch, or the extract call whose keyword
binding fails, caught by the per-file except handler. -/
def processOneFile (collab : Collab)
    (allowedCompanies allowedPlatforms : List String) (strictMode : Bool)
    (cfg : Cfg) (aiOnlyFillEmpty : Bool) (j : Job) (idx seq : Nat)
    (filename0 contentType0 dataBytes : String) : FileOutcome :=
  let filename := if filename0 ≠ "" then filename0 else "unknown"
  let contentType := if contentType0 ≠ "" then contentType0 else ""
  let j := updateFile j idx { state := some "processing" }
  let platformU := "UNKNOWN"
  let text := normalizeText (collab.getText filename contentType dataBytes)
  let clientTaxId := detectClientTaxId text filename cfg
  let company := companyFromTaxId clientTaxId filename
  if text = "" then
    noTextBranch allowedCompanies allowedPlatforms strictMode j idx seq
      filename company
  else
    match callExtractRowFromText (fun _ _ => ("", baseRowDict, []))
        text filename clientTaxId cfg with
    | .error e =>
        errorBranch j idx seq filename company platformU e
    | .ok extracted =>
        postExtract collab allowedCompanies allowedPlatforms strictMode
          aiOnlyFillEmpty j idx seq filename text clientTaxId company
          extracted

/-- _get_job_filters: with a job record shaped by this service, the
company and platform lists come from the normalized cfg, and the
strictMode flag is always False because _safe_cfg drops that key. -/
def getJobFilters (j : Job) : List String × List String × Bool :=
  (normList j.cfg.clientTags, normList j.cfg.platforms, false)

/-- _get_job_cfg. -/
def getJobCfg (j : Job) : Cfg := j.cfg

/-- Tuple unpacking of a payload into the three names of the loop
header; a ValueError on any other arity, raised before the loop body
and therefore outside the per-file try. -/
def unpack3 (item : List PyV) : Except String (PyV × PyV × PyV) :=
  match item with
  | [a, b, c] => .ok (a, b, c)
  | l =>
      if l.length > 3 then
        .error "ValueError: too many values to unpack (expected 3)"
      else
        .error "ValueError: not enough values to unpack (expected 3)"

/-- The payload loop of process_job_files; returns the mutated job,
the final error_files counter and the escaped exception, if any (an
exception keeps every mutation already made, as in-place mutation
does). -/
def workerLoop (collab : Collab) (aiOnlyFillEmpty : Bool)
    (allowedCompanies allowedPlatforms : List String) (strictMode : Bool)
    (cfg : Cfg) :
    List (List PyV) → Nat → Nat → Nat → Nat → Nat → Nat → Job →
    Job × Nat × Option String
  | [], _, _, _, _, err, _, j => (j, err, none)
  | item :: rest, idx, seq, ok, review, err, processed, j =>
      match unpack3 item with
      | .error e => (j, err, some e)
      | .ok (a, b, c) =>
          let out := processOneFile collab allowedCompanies
            allowedPlatforms strictMode cfg aiOnlyFillEmpty j idx seq
            a.asStr b.asStr c.asStr
          let ok := ok + out.okInc
          let review := review + out.reviewInc
          let err := err + out.errInc
          let processed := processed + 1
          let j := updateJobCounters out.job processed ok review err
          workerLoop collab aiOnlyFillEmpty allowedCompanies
            allowedPlatforms strictMode cfg rest (idx + 1) out.seq ok
            review err processed j

/-- process_job_files: read payloads and filters, run the loop, set
the final job state; the second component is the exception escaping
the loop, if any. -/
def processJobFiles (collab : Collab) (aiOnlyFillEmpty : Bool)
    (j : Job) : Job × Option String :=
  let payloads := j.payloads
  let filters := getJobFilters j
  let cfg := getJobCfg j
  let r := workerLoop collab aiOnlyFillEmpty filters.1 filters.2.1
    filters.2.2 cfg payloads 0 1 0 0 0 0 j
  match r.2.2 with
  | some e => (r.1, some e)
  | none =>
      let finalState := if r.2.1 = 0 then "done" else "error"
      (updateJobState r.1 finalState, none)

/-- job_service._run_job: the worker pass with its outer exception
boundary; an escaped exception marks the whole job error with the
stored message. -/
def runJob (collab : Collab) (aiOnlyFillEmpty : Bool) (j : Job) : Job :=
  match processJobFiles collab aiOnlyFillEmpty j with
  | (j2, some e) => { j2 with state := "error", lastError := e }
  | (j2, none) =>
      if j2.state ≠ "cancelled" && j2.state = "processing" then
        { j2 with state := if j2.errorFiles = 0 then "done" else "error" }
      else j2

end Peak

namespace Peak

/-!  services/export_service.py  -/

/-- COLUMNS: the ordered export key/label pairs. -/
def COLUMNS : List (String × String) :=
  [("A_seq", "ลำดับที่*"),
   ("A_company_name", "ชื่อบริษัท"),
   ("B_doc_date", "วันที่เอกสาร"),
   ("C_reference", "อ้างอิงถึง"),
   ("D_vendor_code", "ผู้รับเงิน/คู่ค้า"),
   ("E_tax_id_13", "เลขทะเบียน 13 หลัก"),
   ("F_branch_5", "เลขสาขา 5 หลัก"),
   ("G_invoice_no", "เลขที่ใบกำกับฯ (ถ้ามี)"),
   ("H_invoice_date", "วันที่ใบกำกับฯ (ถ้ามี)"),
   ("I_tax_purchase_date", "วันที่บันทึกภาษีซื้อ (ถ้ามี)"),
   ("J_price_type", "ประเภทราคา"),
   ("K_account", "บัญชี"),
   ("L_description", "คำอธิบาย"),
   ("M_qty", "จำนวน"),
   ("N_unit_price", "ราคาต่อหน่วย"),
   ("O_vat_rate", "อัตราภาษี"),
   ("P_wht", "หัก ณ ที่จ่าย (ถ้ามี)"),
   ("Q_payment_method", "ชำระโดย"),
   ("R_paid_amount", "จำนวนเงินที่ชำระ"),
   ("S_pnd", "ภ.ง.ด. (ถ้ามี)"),
   ("T_note", "หมายเหตุ"),
   ("U_group", "กลุ่มจัดประเภท")]

/-- The metadata keys that travel with a row but are not export
columns. -/
def metadataKeys : List String :=
  ["_source_file", "_platform", "_client_tax_id", "_seller_id", "_errors",
   "_status"]

def MAX_ROWS : Nat := 50000
def MAX_CELL_LENGTH : Nat := 32767

/-- _s on a string value: strip, truncate at the cell limit. -/
def sStr (v : String) : String := pyTake MAX_CELL_LENGTH (pyStrip v)

/-- _s on the A_seq value. -/
def sSeq (v : SeqVal) : String :=
  match v with
  | .int n => sStr (toString n)
  | .str s => sStr s

/-- EXCEL_INJECTION_PREFIXES membership. -/
def isInjectionPrefix (c : Char) : Bool :=
  c = '=' || c = '+' || c = '-' || c = '@'

/-- _escape_excel_formula: a leading formula character is neutralized
with a single-quote character. -/
def escapeExcelFormula (s : String) : String :=
  if s = "" then s
  else
    match s.data.head? with
    | some c =>
        if isInjectionPrefix c then ⟨Char.ofNat 39 :: s.data⟩ else s
    | none => s

/-- _compact_no_ws. -/
def compactNoWs (v : String) : String :=
  let s := sStr v
  if s = "" then "" else removeWS s

/-- The per-row body of _preprocess_rows_for_export (the date-format
check of the source only logs). -/
def preprocessRow (r : Row) (seq : Nat) : Row :=
  { r with
      A_seq := .str (toString seq),
      P_wht := "",
      C_reference := compactNoWs r.C_reference,
      G_invoice_no := compactNoWs r.G_invoice_no,
      A_company_name := sStr r.A_company_name }

def preprocessGo : List Row → Nat → List Row
  | [], _ => []
  | r :: rest, seq => preprocessRow r seq :: preprocessGo rest (seq + 1)

/-- _preprocess_rows_for_export: renumber, force the withholding field
blank, compact both reference fields (the embedded body is total, so
no row is skipped). -/
def preprocessRowsForExport (rows : List Row) : List Row :=
  preprocessGo rows 1

/-- Python truthiness of row.get(k) for the validation scan. -/
def rowTruthy (r : Row) (k : String) : Bool :=
  if k = "A_seq" then
    match r.A_seq with
    | .int n => n ≠ 0
    | .str s => s ≠ ""
  else rowGet r k ≠ ""

/-- validate_rows. -/
def validateRows (rows : List Row) : Bool × List String :=
  if rows = [] then (false, ["No rows to export"])
  else if rows.length > MAX_ROWS then
    (false, ["Too many rows: " ++ toString rows.length ++ " (max: "
      ++ toString MAX_ROWS ++ ")"])
  else
    let errors := (rows.take 100).enum.filterMap
      (fun p =>
        if COLUMNS.any (fun kv => rowTruthy p.2 kv.1) then none
        else some ("Row " ++ toString (p.1 + 1) ++ ": All fields empty"))
    if errors ≠ [] then (false, errors) else (true, [])

/-- The serialized value of one key of one row: _s of the dictionary
value (total over every key a row carries; any other key reads as the
dictionary default, the empty string). -/
def rowFieldS (r : Row) (k : String) : String :=
  if k = "A_seq" then sSeq r.A_seq
  else if k = "_source_file" then sStr r.srcFile
  else if k = "_platform" then sStr r.platformTag
  else if k = "_client_tax_id" then sStr r.clientTaxTag
  else if k = "_seller_id" then sStr r.sellerTag
  else if k = "_status" then sStr r.statusTag
  else sStr (rowGet r k)

/-- One CSV data record: exactly the COLUMNS keys, escaped. -/
def csvDataRow (r : Row) : List String :=
  COLUMNS.map (fun kv => escapeExcelFormula (rowFieldS r kv.1))

def csvHeader : List String := COLUMNS.map (fun kv => kv.2)

/-- export_rows_to_csv_bytes at the cell level (the byte encoding with
BOM and the csv quoting are outside the modelled surface): validation,
preprocessing, header record, one record per row. -/
def exportRowsToCsvCells (rows : List Row) :
    Except String (List (List String)) :=
  let v := validateRows rows
  if !v.1 then .error (String.intercalate "; " v.2)
  else
    let rows2 := preprocessRowsForExport rows
    if rows2 = [] then .error "No valid rows after preprocessing"
    else .ok (csvHeader :: rows2.map csvDataRow)

end Peak

namespace Peak

/-!  Claim formalizations and settled theorems.  -/

/-- Boolean whitespace-presence test on a string. -/
def hasWSb (s : String) : Bool := s.data.any isPyWS

/-- The 21 canonical PEAK field keys, written from the specification
data model (section 3: the 21 fixed field keys A through U). -/
def canonical21 : List String :=
  ["A_seq", "B_doc_date", "C_reference", "D_vendor_code", "E_tax_id_13",
   "F_branch_5", "G_invoice_no", "H_invoice_date", "I_tax_purchase_date",
   "J_price_type", "K_account", "L_description", "M_qty", "N_unit_price",
   "O_vat_rate", "P_wht", "Q_payment_method", "R_paid_amount", "S_pnd",
   "T_note", "U_group"]

/-- A trivial collaborator instance used for concrete runs. -/
def trivialCollab : Collab :=
  { getText := fun _ _ _ => "x"
    aiFill := fun _ _ _ _ => []
    walletCode := fun _ _ _ _ => "" }

/-- Shopee counterexample document for C1: a summary block whose
excluded-VAT subtotal and included-VAT total differ, plus an explicit
withholding remark. -/
def c1ShopeeText : String :=
  "Total Value of Services (Excluded VAT) 100.00\nTotal Value of Services (Included VAT) 107.00\nwithholding tax 3 % at 3.00 THB"

/-- The claimed filter-mismatch decision, written from the
specification words of section 4.8 for comparison with _cfg_mismatch:
a known (non-empty, non-unknown) value must appear in the
corresponding non-empty allow-list, an unknown value mismatches only
in strict mode. -/
def claimedCfgMismatch (allowedCompanies allowedPlatforms : List String)
    (strictMode : Bool) (company platformU : String) : Bool :=
  let c := pyStrip (pyUpper company)
  let p := pyStrip (pyUpper platformU)
  let companyFails :=
    !allowedCompanies.isEmpty &&
      (if c ≠ "" && c ≠ "UNKNOWN" then !allowedCompanies.contains c
       else strictMode)
  let platformFails :=
    !allowedPlatforms.isEmpty &&
      (if p ≠ "" && p ≠ "UNKNOWN" then !allowedPlatforms.contains p
       else strictMode)
  companyFails || platformFails

/-- The amended filter-mismatch decision: as claimed, except that a
company value is treated as known whenever it is non-empty (the code
reserves the unknown-value rule for platforms only). -/
def claimedCfgMismatchAmended
    (allowedCompanies allowedPlatforms : List String)
    (strictMode : Bool) (company platformU : String) : Bool :=
  let c := pyStrip (pyUpper company)
  let p := pyStrip (pyUpper platformU)
  let companyFails :=
    !allowedCompanies.isEmpty &&
      (if c ≠ "" then !allowedCompanies.contains c else strictMode)
  let platformFails :=
    !allowedPlatforms.isEmpty &&
      (if p ≠ "" && p ≠ "UNKNOWN" then !allowedPlatforms.contains p
       else strictMode)
  companyFails || platformFails

/-- A one-file job as the service builds it: create_job then one
add_file. -/
def c5Job : Job := addFile (createJob {}) "a.pdf" "application/pdf" "B"

/-!  Helper lemmas on characters and strings.  -/

/-- A row whose reference fields are both nonempty and different; the
sync conditions of _normalize_row_fields then leave them different. -/
def c2Row : Row := { C_reference := "AB", G_invoice_no := "CD" }

/-- Unit-price value of extract_shopee step 4 as a function of the
resolved amounts (subtotal, vat, total, wht_amount). -/
def shopeeNVal (a : String × String × String × String) : String :=
  if a.1 ≠ "" then a.1
  else if a.2.2.1 ≠ "" then a.2.2.1
  else if a.2.1 ≠ "" then a.2.1
  else "0"

/-- Paid-amount value of extract_shopee step 4 as a function of the
resolved amounts. -/
def shopeeRVal (a : String × String × String × String) : String :=
  if a.2.2.1 ≠ "" then a.2.2.1
  else if a.1 ≠ "" then a.1
  else shopeeNVal a

/-- Money value of extract_spx step 5 as a function of the strict
amounts, used for both the unit price and the paid amount. -/
def spxNVal (a : SpxAmounts) : String :=
  if a.totalIncVat ≠ "" then a.totalIncVat else "0"

/-- A row whose unit price contains a split currency marker: removing
the substring THB from TTHBHB recreates THB. -/
def c9Row : Row := { N_unit_price := "TTHBHB" }

lemma char_toNat_ofNat (n : Nat) (h : Char.isValidCharNat n) :
    (Char.ofNat n).toNat = n := by
  unfold Char.ofNat
  rw [dif_pos h]
  rfl

lemma ws_char_cases {c : Char} (h : isPyWS c = true) :
    ((((c = ' ' ∨ c = '\t') ∨ c = '\n') ∨ c = '\x0d') ∨ c = '\x0b')
      ∨ c = '\x0c' := by
  simpa [isPyWS] using h

lemma digit_not_ws (c : Char) (h : isPyDigit c = true) : isPyWS c = false := by
  cases hws : isPyWS c with
  | false => rfl
  | true =>
      rcases ws_char_cases hws with ((((h1 | h1) | h1) | h1) | h1) | h1 <;>
        subst h1 <;> exact absurd h (by decide)

lemma toUpper_idem (c : Char) : c.toUpper.toUpper = c.toUpper := by
  unfold Char.toUpper
  by_cases h : c.toNat ≥ 97 ∧ c.toNat ≤ 122
  · rw [if_pos h]
    have hv : (Char.ofNat (c.toNat - 32)).toNat = c.toNat - 32 :=
      char_toNat_ofNat _ (Or.inl (by omega))
    rw [if_neg (by rw [hv]; omega)]
  · rw [if_neg h, if_neg h]

lemma isPyWS_toUpper (c : Char) : isPyWS c.toUpper = isPyWS c := by
  cases hws : isPyWS c with
  | true =>
      rcases ws_char_cases hws with ((((h1 | h1) | h1) | h1) | h1) | h1 <;>
        subst h1 <;> decide
  | false =>
      unfold Char.toUpper
      by_cases h : c.toNat ≥ 97 ∧ c.toNat ≤ 122
      · rw [if_pos h]
        cases hws2 : isPyWS (Char.ofNat (c.toNat - 32)) with
        | false => rfl
        | true =>
            exfalso
            have hv : (Char.ofNat (c.toNat - 32)).toNat = c.toNat - 32 :=
              char_toNat_ofNat _ (Or.inl (by omega))
            rcases ws_char_cases hws2 with
              ((((h1 | h1) | h1) | h1) | h1) | h1 <;>
              · have h2 := congrArg Char.toNat h1
                rw [hv] at h2
                simp only [show (' ' : Char).toNat = 32 from rfl,
                  show ('\t' : Char).toNat = 9 from rfl,
                  show ('\n' : Char).toNat = 10 from rfl,
                  show ('\x0d' : Char).toNat = 13 from rfl,
                  show ('\x0b' : Char).toNat = 11 from rfl,
                  show ('\x0c' : Char).toNat = 12 from rfl] at h2
                omega
      · rw [if_neg h]
        exact hws

lemma string_mk_data (s : String) : String.mk s.data = s := rfl

lemma stripL_eq (l : List Char) :
    stripL l = List.rdropWhile isPyWS (List.dropWhile isPyWS l) := rfl

lemma stripL_idem (l : List Char) : stripL (stripL l) = stripL l := by
  rw [stripL_eq l, stripL_eq]
  have h1 : List.dropWhile isPyWS
      (List.rdropWhile isPyWS (List.dropWhile isPyWS l)) =
      List.rdropWhile isPyWS (List.dropWhile isPyWS l) := by
    cases hA : List.rdropWhile isPyWS (List.dropWhile isPyWS l) with
    | nil => rfl
    | cons c rest =>
        obtain ⟨t, ht⟩ := List.rdropWhile_prefix isPyWS
          (List.dropWhile isPyWS l)
        rw [hA] at ht
        have hAc : List.dropWhile isPyWS l = c :: (rest ++ t) := by
          rw [← ht]; simp
        have hh : (List.dropWhile isPyWS l).head? = some c := by
          rw [hAc]; rfl
        have hp := List.head?_dropWhile_not isPyWS l
        rw [hh] at hp
        simp only [List.dropWhile_cons, hp, if_neg]
        simp
  rw [h1, List.rdropWhile_idempotent]

lemma stripL_subset (l : List Char) : ∀ c ∈ stripL l, c ∈ l := by
  intro c hc
  rw [stripL_eq] at hc
  exact (List.dropWhile_suffix isPyWS).subset
    ((List.rdropWhile_prefix isPyWS (List.dropWhile isPyWS l)).subset hc)

lemma stripL_eq_self_of_all (l : List Char)
    (h : ∀ c ∈ l, isPyWS c = false) : stripL l = l := by
  rw [stripL_eq]
  have h1 : List.dropWhile isPyWS l = l := by
    rw [List.dropWhile_eq_self_iff]
    intro hl
    simpa using h (l.get ⟨0, hl⟩) (l.get_mem 0 hl)
  rw [h1, List.rdropWhile_eq_self_iff]
  intro hl
  simpa using h (l.getLast hl) (l.getLast_mem hl)

/-- Boolean any-whitespace on the character list level. -/
lemma hasWSb_eq_false_iff (s : String) :
    hasWSb s = false ↔ ∀ c ∈ s.data, isPyWS c = false := by
  simp [hasWSb]

lemma pyStrip_idem (s : String) : pyStrip (pyStrip s) = pyStrip s :=
  congrArg String.mk (stripL_idem s.data)

lemma pyStrip_of_noWS {s : String} (h : hasWSb s = false) :
    pyStrip s = s := by
  have h2 : stripL s.data = s.data :=
    stripL_eq_self_of_all s.data ((hasWSb_eq_false_iff s).mp h)
  show String.mk (stripL s.data) = s
  rw [h2]

lemma hasWSb_pyStrip {s : String} (h : hasWSb s = false) :
    hasWSb (pyStrip s) = false := by
  rw [pyStrip_of_noWS h]
  exact h

lemma hasWSb_removeWS (s : String) : hasWSb (removeWS s) = false := by
  rw [hasWSb_eq_false_iff]
  intro c hc
  have := List.of_mem_filter hc
  simpa using this

lemma pyStrip_empty : pyStrip "" = "" := rfl

lemma compactRefW_noWS (v : String) : hasWSb (compactRefW v) = false := by
  show hasWSb (if safeStr v = "" then "" else removeWS (safeStr v)) = false
  split
  · rfl
  · exact hasWSb_removeWS _

lemma safeStr_compactRefW (v : String) :
    safeStr (compactRefW v) = compactRefW v :=
  pyStrip_of_noWS (compactRefW_noWS v)

lemma removeWS_of_noWS {s : String} (h : hasWSb s = false) :
    removeWS s = s := by
  show String.mk (s.data.filter (fun c => !isPyWS c)) = s
  have h2 : s.data.filter (fun c => !isPyWS c) = s.data :=
    List.filter_eq_self.mpr
      (fun c hc => by simpa using (hasWSb_eq_false_iff s).mp h c hc)
  rw [h2]

lemma compactRefW_idem (v : String) :
    compactRefW (compactRefW v) = compactRefW v := by
  by_cases h : compactRefW v = ""
  · rw [h]; rfl
  · have h2 : compactRefW (compactRefW v) =
        if safeStr (compactRefW v) = "" then ""
        else removeWS (safeStr (compactRefW v)) := rfl
    rw [h2, safeStr_compactRefW v, if_neg h]
    exact removeWS_of_noWS (compactRefW_noWS v)

lemma digitsOnlyS_all (s : String) :
    ∀ c ∈ (digitsOnlyS s).data, isPyDigit c = true := by
  intro c hc
  exact List.of_mem_filter hc

lemma digitsOnlyS_of_all {s : String}
    (h : ∀ c ∈ s.data, isPyDigit c = true) : digitsOnlyS s = s := by
  show String.mk (s.data.filter isPyDigit) = s
  rw [List.filter_eq_self.mpr h]

lemma noWS_of_all_digits {s : String}
    (h : ∀ c ∈ s.data, isPyDigit c = true) : hasWSb s = false :=
  (hasWSb_eq_false_iff s).mpr (fun c hc => digit_not_ws c (h c hc))

lemma pyTake_of_le {n : Nat} {s : String} (h : s.data.length ≤ n) :
    pyTake n s = s := by
  show String.mk (s.data.take n) = s
  rw [List.take_of_length_le h]

lemma pyTake_all_digits {n : Nat} {s : String}
    (h : ∀ c ∈ s.data, isPyDigit c = true) :
    ∀ c ∈ (pyTake n s).data, isPyDigit c = true :=
  fun c hc => h c (List.take_subset n s.data hc)

lemma pyTake_len (n : Nat) (s : String) :
    (pyTake n s).data.length ≤ n := by
  show (s.data.take n).length ≤ n
  simp [List.length_take]

/-- The date and tax-id normalization core digits-then-truncate is
stable on its own output. -/
lemma digitsTake_stable (n : Nat) (y : String)
    (hd : ∀ c ∈ y.data, isPyDigit c = true) (hl : y.data.length ≤ n) :
    pyTake n (digitsOnlyS (safeStr y)) = y := by
  have h1 : safeStr y = y := pyStrip_of_noWS (noWS_of_all_digits hd)
  rw [show safeStr y = y from h1, digitsOnlyS_of_all hd, pyTake_of_le hl]

lemma digitsTake_digits (n : Nat) (s : String) :
    ∀ c ∈ (pyTake n (digitsOnlyS (safeStr s))).data, isPyDigit c = true :=
  pyTake_all_digits (digitsOnlyS_all (safeStr s))

lemma digitsTake_idem (n : Nat) (s : String) :
    pyTake n (digitsOnlyS (safeStr (pyTake n (digitsOnlyS (safeStr s))))) =
      pyTake n (digitsOnlyS (safeStr s)) :=
  digitsTake_stable n _ (digitsTake_digits n s) (pyTake_len n _)

lemma normDateField_idem (x : String) :
    normDateField (normDateField x) = normDateField x := by
  by_cases hx : x = ""
  · subst hx; decide
  · unfold normDateField
    rw [if_pos hx]
    by_cases hy : pyTake 8 (digitsOnlyW (safeStr x)) = ""
    · rw [hy]; decide
    · rw [if_pos hy]
      exact digitsTake_idem 8 x

lemma pyZfill_len (n : Nat) (s : String) :
    (pyZfill n s).data.length = max n s.data.length := by
  show (List.replicate (n - s.data.length) '0' ++ s.data).length = _
  simp [List.length_replicate]
  omega

lemma pyZfill_all_digits {n : Nat} {s : String}
    (h : ∀ c ∈ s.data, isPyDigit c = true) :
    ∀ c ∈ (pyZfill n s).data, isPyDigit c = true := by
  intro c hc
  rcases List.mem_append.mp hc with hc1 | hc2
  · rw [List.eq_of_mem_replicate hc1]; decide
  · exact h c hc2

lemma string_ne_empty_of_len {s : String} (h : 0 < s.data.length) :
    s ≠ "" := by
  intro he
  rw [he] at h
  simp at h

/-- The branch normalization of _normalize_row_fields is stable on a
five-digit string. -/
lemma branch_core_stable (f : String)
    (hd : ∀ c ∈ f.data, isPyDigit c = true) (hl : f.data.length = 5) :
    (let br := digitsOnlyW (safeStr f)
     if br ≠ "" then pyTake 5 (pyZfill 5 br) else "00000") = f := by
  have h1 : safeStr f = f := pyStrip_of_noWS (noWS_of_all_digits hd)
  have h2 : digitsOnlyW (safeStr f) = f := by
    rw [h1]; exact digitsOnlyS_of_all hd
  have hne : f ≠ "" := string_ne_empty_of_len (by omega)
  have h3 : pyZfill 5 f = f := by
    show String.mk (List.replicate (5 - f.data.length) '0' ++ f.data) = f
    rw [hl]
    simp
  simp only [h2]
  rw [if_pos hne, h3, pyTake_of_le (by omega)]

lemma pyUpper_idem (s : String) : pyUpper (pyUpper s) = pyUpper s := by
  show String.mk ((s.data.map Char.toUpper).map Char.toUpper) = _
  rw [List.map_map]
  exact congrArg String.mk
    (List.map_congr_left (fun c _ => toUpper_idem c))

lemma stripL_map_upper (l : List Char) :
    stripL (l.map Char.toUpper) = (stripL l).map Char.toUpper := by
  have hfun : (isPyWS ∘ Char.toUpper) = isPyWS := by
    funext c
    exact isPyWS_toUpper c
  unfold stripL
  rw [List.dropWhile_map, hfun, ← List.map_reverse, List.dropWhile_map,
    hfun, ← List.map_reverse]

lemma pyStrip_pyUpper (s : String) :
    pyStrip (pyUpper s) = pyUpper (pyStrip s) :=
  congrArg String.mk (stripL_map_upper s.data)

lemma safeStr_upper_strip (x : String) :
    safeStr (pyUpper (safeStr x)) = pyUpper (safeStr x) := by
  show pyStrip (pyUpper (pyStrip x)) = pyUpper (pyStrip x)
  rw [pyStrip_pyUpper, pyStrip_idem]


lemma removeSubF_subset (pat : List Char) :
    ∀ (fuel : Nat) (l : List Char), ∀ c ∈ removeSubF pat fuel l, c ∈ l := by
  intro fuel
  induction fuel with
  | zero => intro l c hc; exact hc
  | succ n ih =>
      intro l c hc
      cases l with
      | nil => simp [removeSubF] at hc
      | cons a rest =>
          by_cases hp : pat.isPrefixOf (a :: rest)
          · rw [show removeSubF pat (n + 1) (a :: rest) =
                removeSubF pat n ((a :: rest).drop pat.length) from by
              rw [removeSubF, if_pos hp]] at hc
            exact List.drop_subset _ _ (ih _ c hc)
          · rw [show removeSubF pat (n + 1) (a :: rest) =
                a :: removeSubF pat n rest from by
              rw [removeSubF, if_neg hp]] at hc
            rw [List.mem_cons] at hc
            rcases hc with hc | hc
            · rw [hc]; exact List.mem_cons_self _ _
            · exact List.mem_cons_of_mem _ (ih _ c hc)

lemma removeSubF_no_occ (pat : List Char) :
    ∀ (fuel : Nat) (l : List Char),
      (∀ i, pat.isPrefixOf (l.drop i) = false) →
      removeSubF pat fuel l = l := by
  intro fuel
  induction fuel with
  | zero => intro l _; rfl
  | succ n ih =>
      intro l h
      cases l with
      | nil => rfl
      | cons a rest =>
          have h0 := h 0
          rw [List.drop_zero] at h0
          rw [removeSubF, if_neg (by simp [h0])]
          rw [ih rest (fun i => h (i + 1))]

lemma hasSub_false_no_occ {pat s : String} (hp : pat.data ≠ [])
    (h : hasSub pat s = false) :
    ∀ i, pat.data.isPrefixOf (s.data.drop i) = false := by
  intro i
  by_cases hi : i ≤ s.data.length
  · have h2 := List.any_eq_false.mp h
    have h3 := h2 i (List.mem_range.mpr (by omega))
    exact Bool.eq_false_iff.mpr h3
  · rw [List.drop_eq_nil_of_le (by omega)]
    cases hc : pat.data with
    | nil => exact absurd hc hp
    | cons a as => rfl

lemma removeSub_of_not_hasSub {pat s : String} (hp : pat.data ≠ [])
    (h : hasSub pat s = false) : removeSub pat s = s := by
  show String.mk (removeSubF pat.data (s.data.length + 1) s.data) = s
  rw [removeSubF_no_occ pat.data _ s.data (hasSub_false_no_occ hp h)]

lemma mem_removeSub {pat s : String} {c : Char}
    (hc : c ∈ (removeSub pat s).data) : c ∈ s.data :=
  removeSubF_subset pat.data _ s.data c hc

lemma mem_removeChar {d c : Char} {s : String}
    (h : d ∈ (removeChar c s).data) : d ∈ s.data :=
  List.mem_of_mem_filter h

lemma removeChar_not_mem (c : Char) (s : String) :
    c ∉ (removeChar c s).data := by
  intro h
  have := List.of_mem_filter h
  simp at this

lemma removeChar_of_not_mem {c : Char} {s : String} (h : c ∉ s.data) :
    removeChar c s = s := by
  show String.mk (s.data.filter _) = s
  have h2 : s.data.filter (fun d => decide (d ≠ c)) = s.data :=
    List.filter_eq_self.mpr
      (fun d hd => by
        simp only [decide_eq_true_eq]
        intro he
        exact h (he ▸ hd))
  rw [h2]

lemma mem_pyStrip {c : Char} {s : String} (h : c ∈ (pyStrip s).data) :
    c ∈ s.data :=
  stripL_subset s.data c h

/-- The cleaned-money string of _clean_money_str is a fixed point of a
second cleaning whenever it does not contain the substring THB (comma
removal or THB removal can recreate that substring, so the proviso is
necessary). -/
lemma cleanMoneyW_stable (v : String)
    (h : hasSub "THB" (cleanMoneyW v) = false) :
    cleanMoneyW (cleanMoneyW v) = cleanMoneyW v := by
  by_cases h0 : cleanMoneyW v = ""
  · rw [h0]; rfl
  · by_cases hsv : safeStr v = ""
    · exfalso
      apply h0
      show (if safeStr v = "" then ""
        else pyStrip (removeChar ',' (removeSub "THB"
          (removeChar '฿' (safeStr v))))) = ""
      rw [if_pos hsv]
    · have hy : cleanMoneyW v =
          pyStrip (removeChar ',' (removeSub "THB"
            (removeChar '฿' (safeStr v)))) := by
        show (if safeStr v = "" then "" else _) = _
        rw [if_neg hsv]
      have hstrip : safeStr (cleanMoneyW v) = cleanMoneyW v := by
        rw [hy]
        exact pyStrip_idem _
      have hbaht : '฿' ∉ (cleanMoneyW v).data := by
        rw [hy]
        intro hmem
        exact removeChar_not_mem '฿' (safeStr v)
          (mem_removeSub (mem_removeChar (mem_pyStrip hmem)))
      have hcomma : ',' ∉ (cleanMoneyW v).data := by
        rw [hy]
        intro hmem
        exact removeChar_not_mem ','
          (removeSub "THB" (removeChar '฿' (safeStr v)))
          (mem_pyStrip hmem)
      show (if safeStr (cleanMoneyW v) = "" then ""
        else pyStrip (removeChar ',' (removeSub "THB"
          (removeChar '฿' (safeStr (cleanMoneyW v)))))) = cleanMoneyW v
      rw [hstrip, if_neg h0, removeChar_of_not_mem hbaht,
        removeSub_of_not_hasSub (by decide) h,
        removeChar_of_not_mem hcomma]
      rw [hy]
      exact pyStrip_idem _


/-- The tax-id normalization of _normalize_row_fields is idempotent. -/
lemma normTax13_idem (x : String) :
    normTax13 (normTax13 x) = normTax13 x :=
  digitsTake_idem 13 x

/-- The branch normalization of _normalize_row_fields is idempotent. -/
lemma normBranch_idem (x : String) :
    normBranch (normBranch x) = normBranch x := by
  by_cases h0 : digitsOnlyW (safeStr x) = ""
  · have hy : normBranch x = "00000" := by
      show (if digitsOnlyW (safeStr x) ≠ "" then
        pyTake 5 (pyZfill 5 (digitsOnlyW (safeStr x))) else "00000") = "00000"
      rw [if_neg (fun hc => hc h0)]
    rw [hy]
    decide
  · have hy : normBranch x =
        pyTake 5 (pyZfill 5 (digitsOnlyW (safeStr x))) := by
      show (if digitsOnlyW (safeStr x) ≠ "" then
        pyTake 5 (pyZfill 5 (digitsOnlyW (safeStr x))) else "00000") = _
      rw [if_pos h0]
    rw [hy]
    exact branch_core_stable _
      (pyTake_all_digits (pyZfill_all_digits (digitsOnlyS_all _)))
      (by
        show ((pyZfill 5 (digitsOnlyW (safeStr x))).data.take 5).length = 5
        rw [List.length_take, pyZfill_len]
        omega)

/-- The price-type coercion of _normalize_row_fields is idempotent. -/
lemma normPriceType_idem (x : String) :
    normPriceType (normPriceType x) = normPriceType x := by
  have hs : safeStr (safeStr x) = safeStr x := pyStrip_idem x
  have hcore : ∀ y : String, normPriceType y =
      if safeStr y = "1" || safeStr y = "2" || safeStr y = "3" then safeStr y
      else if safeStr y ≠ "" then safeStr y else "1" := fun _ => rfl
  rw [hcore x]
  by_cases h1 : (safeStr x = "1" || safeStr x = "2" || safeStr x = "3") = true
  · rw [if_pos h1]
    have h1x : safeStr x = "1" ∨ safeStr x = "2" ∨ safeStr x = "3" := by
      simpa [or_assoc] using h1
    rcases h1x with h | h | h <;> rw [h] <;> decide
  · rw [if_neg h1]
    by_cases h2 : safeStr x = ""
    · rw [if_neg (fun hc => hc h2)]
      decide
    · rw [if_pos h2]
      rw [hcore (safeStr x), hs, if_neg h1, if_pos h2]

/-- The VAT-rate coercion of _normalize_row_fields is idempotent. -/
lemma normVatRate_idem (x : String) :
    normVatRate (normVatRate x) = normVatRate x := by
  have hup : pyUpper (safeStr (pyUpper (safeStr x))) = pyUpper (safeStr x) := by
    rw [safeStr_upper_strip x]
    exact pyUpper_idem _
  have hcore : ∀ y : String, normVatRate y =
      if pyUpper (safeStr y) = "NO" || pyUpper (safeStr y) = "0" ||
          pyUpper (safeStr y) = "NONE" then "NO"
      else if pyUpper (safeStr y) = "" || hasSub "7" (pyUpper (safeStr y))
        then "7%" else pyUpper (safeStr y) := fun _ => rfl
  rw [hcore x]
  by_cases h1 : (pyUpper (safeStr x) = "NO" || pyUpper (safeStr x) = "0" ||
      pyUpper (safeStr x) = "NONE") = true
  · rw [if_pos h1]
    decide
  · rw [if_neg h1]
    by_cases h2 : (pyUpper (safeStr x) = "" ||
        hasSub "7" (pyUpper (safeStr x))) = true
    · rw [if_pos h2]
      decide
    · rw [if_neg h2]
      rw [hcore (pyUpper (safeStr x)), hup, if_neg h1, if_neg h2]

/-- The quantity default of _normalize_row_fields is idempotent. -/
lemma normQty_idem (x : String) : normQty (normQty x) = normQty x := by
  have hcore : ∀ y : String, normQty y =
      if safeStr (if y ≠ "" then y else "1") ≠ ""
        then safeStr (if y ≠ "" then y else "1") else "1" := fun _ => rfl
  rw [hcore x]
  by_cases h0 : safeStr (if x ≠ "" then x else "1") ≠ ""
  · rw [if_pos h0]
    have hs : safeStr (safeStr (if x ≠ "" then x else "1")) =
        safeStr (if x ≠ "" then x else "1") := pyStrip_idem _
    rw [hcore (safeStr (if x ≠ "" then x else "1")), if_pos h0, hs, if_pos h0]
  · rw [if_neg h0]
    decide

/-- The money cleanup of _normalize_row_fields never returns the empty
string. -/
lemma normMoney_ne_empty (x : String) : normMoney x ≠ "" := by
  have hcore : normMoney x =
      if cleanMoneyW x ≠ "" then cleanMoneyW x else "0" := rfl
  rw [hcore]
  by_cases h0 : cleanMoneyW x ≠ ""
  · rw [if_pos h0]
    exact h0
  · rw [if_neg h0]
    decide

/-- The money cleanup of _normalize_row_fields is stable on its own
output when that output does not contain the substring THB. -/
lemma normMoney_stable (x : String)
    (h : hasSub "THB" (normMoney x) = false) :
    normMoney (normMoney x) = normMoney x := by
  have hcore : ∀ y : String, normMoney y =
      if cleanMoneyW y ≠ "" then cleanMoneyW y else "0" := fun _ => rfl
  rw [hcore x] at h ⊢
  by_cases h0 : cleanMoneyW x ≠ ""
  · rw [if_pos h0] at h ⊢
    rw [hcore (cleanMoneyW x), cleanMoneyW_stable x h, if_pos h0]
  · rw [if_neg h0]
    decide

/-- Python `a or b` keeps a nonempty left operand. -/
lemma moneyOr_of_ne {a : String} (h : a ≠ "") (b : String) :
    moneyOr a b = a := if_pos h

/-- Closed form of the reference sync on strip-stable inputs. -/
lemma syncRefs_eq (c0 g0 : String) (hc : safeStr c0 = c0)
    (hg : safeStr g0 = g0) :
    syncRefs c0 g0 =
      if c0 = "" then (if g0 = "" then (c0, g0) else (g0, g0))
      else if g0 = "" then (c0, c0) else (c0, g0) := by
  have hse : safeStr ("" : String) = "" := rfl
  unfold syncRefs
  by_cases e1 : c0 = ""
  · by_cases e2 : g0 = ""
    · simp [hc, hg, hse, e1, e2]
    · simp [hc, hg, hse, e1, e2]
  · by_cases e2 : g0 = ""
    · simp [hc, hg, hse, e1, e2]
    · simp [hc, hg, hse, e1, e2]

/-- Compacting and re-syncing the synced reference pair changes
nothing. -/
lemma syncRefs_compact_stable (x y : String) :
    syncRefs (compactRefW (syncRefs (compactRefW x) (compactRefW y)).1)
      (compactRefW (syncRefs (compactRefW x) (compactRefW y)).2) =
      syncRefs (compactRefW x) (compactRefW y) := by
  have hc : safeStr (compactRefW x) = compactRefW x := safeStr_compactRefW x
  have hg : safeStr (compactRefW y) = compactRefW y := safeStr_compactRefW y
  have hcc : compactRefW (compactRefW x) = compactRefW x := compactRefW_idem x
  have hgc : compactRefW (compactRefW y) = compactRefW y := compactRefW_idem y
  rw [syncRefs_eq (compactRefW x) (compactRefW y) hc hg]
  by_cases e1 : compactRefW x = ""
  · by_cases e2 : compactRefW y = ""
    · rw [if_pos e1, if_pos e2]
      show syncRefs (compactRefW (compactRefW x))
        (compactRefW (compactRefW y)) = (compactRefW x, compactRefW y)
      rw [hcc, hgc, syncRefs_eq (compactRefW x) (compactRefW y) hc hg]
      simp [e1, e2]
    · rw [if_pos e1, if_neg e2]
      show syncRefs (compactRefW (compactRefW y))
        (compactRefW (compactRefW y)) = (compactRefW y, compactRefW y)
      rw [hgc, syncRefs_eq (compactRefW y) (compactRefW y) hg hg]
      simp [e2]
  · by_cases e2 : compactRefW y = ""
    · rw [if_neg e1, if_pos e2]
      show syncRefs (compactRefW (compactRefW x))
        (compactRefW (compactRefW x)) = (compactRefW x, compactRefW x)
      rw [hcc, syncRefs_eq (compactRefW x) (compactRefW x) hc hc]
      simp [e1]
    · rw [if_neg e1, if_neg e2]
      show syncRefs (compactRefW (compactRefW x))
        (compactRefW (compactRefW y)) = (compactRefW x, compactRefW y)
      rw [hcc, hgc, syncRefs_eq (compactRefW x) (compactRefW y) hc hg]
      simp [e1, e2]

/-- Unit-price equation of _normalize_row_fields. -/
lemma normalizeRowFields_N (row : Row) (seq : Nat) :
    (normalizeRowFields row seq).N_unit_price =
      normMoney (moneyOr row.N_unit_price (moneyOr row.R_paid_amount "0")) :=
  rfl

/-- Paid-amount equation of _normalize_row_fields: it reads the already
normalized unit price. -/
lemma normalizeRowFields_R (row : Row) (seq : Nat) :
    (normalizeRowFields row seq).R_paid_amount =
      normMoney (moneyOr row.R_paid_amount (moneyOr
        (normMoney (moneyOr row.N_unit_price (moneyOr row.R_paid_amount "0")))
        "0")) := rfl

/-- Reference equation of _normalize_row_fields. -/
lemma normalizeRowFields_C (row : Row) (seq : Nat) :
    (normalizeRowFields row seq).C_reference =
      (syncRefs (compactRefW row.C_reference)
        (compactRefW row.G_invoice_no)).1 := rfl

/-- Invoice-number equation of _normalize_row_fields. -/
lemma normalizeRowFields_G (row : Row) (seq : Nat) :
    (normalizeRowFields row seq).G_invoice_no =
      (syncRefs (compactRefW row.C_reference)
        (compactRefW row.G_invoice_no)).2 := rfl


/-!  Per-step projection and preservation lemmas for the extractor
tails.  Each step of extract_shopee and extract_spx writes a fixed set
of fields; projections of all other fields pass through. -/

lemma shStepFixed_N (r : Row) : (shStepFixed r).N_unit_price = r.N_unit_price := rfl

lemma shStepFixed_C (r : Row) : (shStepFixed r).C_reference = r.C_reference := rfl

lemma shStepFixed_G (r : Row) : (shStepFixed r).G_invoice_no = r.G_invoice_no := rfl

lemma shStepFixed_O (r : Row) : (shStepFixed r).O_vat_rate = "7%" := rfl

lemma shStepN_N (a : String × String × String × String) (r : Row) :
    (shStepN a r).N_unit_price = shopeeNVal a := rfl

lemma shStepN_O (a : String × String × String × String) (r : Row) :
    (shStepN a r).O_vat_rate = r.O_vat_rate := rfl

lemma shStepN_C (a : String × String × String × String) (r : Row) :
    (shStepN a r).C_reference = r.C_reference := rfl

lemma shStepN_G (a : String × String × String × String) (r : Row) :
    (shStepN a r).G_invoice_no = r.G_invoice_no := rfl

lemma shStepR_R (a : String × String × String × String) (r : Row) :
    (shStepR a r).R_paid_amount =
      (if a.2.2.1 ≠ "" then a.2.2.1
       else if a.1 ≠ "" then a.1
       else if r.N_unit_price ≠ "" then r.N_unit_price
       else "0") := rfl

lemma shStepR_N (a : String × String × String × String) (r : Row) :
    (shStepR a r).N_unit_price = r.N_unit_price := rfl

lemma shStepR_O (a : String × String × String × String) (r : Row) :
    (shStepR a r).O_vat_rate = r.O_vat_rate := rfl

lemma shStepR_C (a : String × String × String × String) (r : Row) :
    (shStepR a r).C_reference = r.C_reference := rfl

lemma shStepR_G (a : String × String × String × String) (r : Row) :
    (shStepR a r).G_invoice_no = r.G_invoice_no := rfl

lemma shStepP_N (r : Row) : (shStepP r).N_unit_price = r.N_unit_price := rfl

lemma shStepP_R (r : Row) : (shStepP r).R_paid_amount = r.R_paid_amount := rfl

lemma shStepP_O (r : Row) : (shStepP r).O_vat_rate = r.O_vat_rate := rfl

lemma shStepP_C (r : Row) : (shStepP r).C_reference = r.C_reference := rfl

lemma shStepP_G (r : Row) : (shStepP r).G_invoice_no = r.G_invoice_no := rfl

lemma shStepS_N (w : String) (r : Row) :
    (shStepS w r).N_unit_price = r.N_unit_price := by
  unfold shStepS
  split <;> rfl

lemma shStepS_R (w : String) (r : Row) :
    (shStepS w r).R_paid_amount = r.R_paid_amount := by
  unfold shStepS
  split <;> rfl

lemma shStepS_O (w : String) (r : Row) :
    (shStepS w r).O_vat_rate = r.O_vat_rate := by
  unfold shStepS
  split <;> rfl

lemma shStepS_C (w : String) (r : Row) :
    (shStepS w r).C_reference = r.C_reference := by
  unfold shStepS
  split <;> rfl

lemma shStepS_G (w : String) (r : Row) :
    (shStepS w r).G_invoice_no = r.G_invoice_no := by
  unfold shStepS
  split <;> rfl

lemma shStepFixed2_N (r : Row) : (shStepFixed2 r).N_unit_price = r.N_unit_price := rfl

lemma shStepFixed2_R (r : Row) : (shStepFixed2 r).R_paid_amount = r.R_paid_amount := rfl

lemma shStepFixed2_O (r : Row) : (shStepFixed2 r).O_vat_rate = r.O_vat_rate := rfl

lemma shStepFixed2_C (r : Row) : (shStepFixed2 r).C_reference = r.C_reference := rfl

lemma shStepFixed2_G (r : Row) : (shStepFixed2 r).G_invoice_no = r.G_invoice_no := rfl

lemma shStepCompact_N (r : Row) : (shStepCompact r).N_unit_price = r.N_unit_price := rfl

lemma shStepCompact_R (r : Row) : (shStepCompact r).R_paid_amount = r.R_paid_amount := rfl

lemma shStepCompact_O (r : Row) : (shStepCompact r).O_vat_rate = r.O_vat_rate := rfl

lemma shStepSync1_N (r : Row) : (shStepSync1 r).N_unit_price = r.N_unit_price := by
  unfold shStepSync1
  split <;> rfl

lemma shStepSync1_R (r : Row) : (shStepSync1 r).R_paid_amount = r.R_paid_amount := by
  unfold shStepSync1
  split <;> rfl

lemma shStepSync1_O (r : Row) : (shStepSync1 r).O_vat_rate = r.O_vat_rate := by
  unfold shStepSync1
  split <;> rfl

lemma shStepSync2_N (r : Row) : (shStepSync2 r).N_unit_price = r.N_unit_price := by
  unfold shStepSync2
  split <;> rfl

lemma shStepSync2_R (r : Row) : (shStepSync2 r).R_paid_amount = r.R_paid_amount := by
  unfold shStepSync2
  split <;> rfl

lemma shStepSync2_O (r : Row) : (shStepSync2 r).O_vat_rate = r.O_vat_rate := by
  unfold shStepSync2
  split <;> rfl

lemma shStepFinal_N (r : Row) : (shStepFinal r).N_unit_price = r.N_unit_price := rfl

lemma shStepFinal_R (r : Row) : (shStepFinal r).R_paid_amount = r.R_paid_amount := rfl

lemma shStepFinal_O (r : Row) : (shStepFinal r).O_vat_rate = r.O_vat_rate := rfl

lemma shStepFinal_C (r : Row) : (shStepFinal r).C_reference = r.C_reference := rfl

lemma shStepFinal_G (r : Row) : (shStepFinal r).G_invoice_no = r.G_invoice_no := rfl

/-- The selected Shopee unit price is never empty. -/
lemma shopeeNVal_ne_empty (a : String × String × String × String) :
    shopeeNVal a ≠ "" := by
  unfold shopeeNVal
  split_ifs with h1 h2 h3
  exacts [h1, h2, h3, by decide]

/-- Unit price produced by the Shopee tail. -/
lemma extractShopeeTail_N (t : String) (r : Row) :
    (extractShopeeTail t r).N_unit_price = shopeeNVal (shopeeAmounts t) := by
  simp only [extractShopeeTail, formatPeakRow]
  rw [shStepFinal_N, shStepSync2_N, shStepSync1_N, shStepCompact_N,
    shStepFixed2_N, shStepS_N, shStepP_N, shStepR_N, shStepN_N]

/-- Paid amount produced by the Shopee tail. -/
lemma extractShopeeTail_R (t : String) (r : Row) :
    (extractShopeeTail t r).R_paid_amount = shopeeRVal (shopeeAmounts t) := by
  simp only [extractShopeeTail, formatPeakRow]
  rw [shStepFinal_R, shStepSync2_R, shStepSync1_R, shStepCompact_R,
    shStepFixed2_R, shStepS_R, shStepP_R, shStepR_R, shStepN_N,
    if_pos (shopeeNVal_ne_empty (shopeeAmounts t))]
  rfl

/-- VAT rate produced by the Shopee tail. -/
lemma extractShopeeTail_O (t : String) (r : Row) :
    (extractShopeeTail t r).O_vat_rate = "7%" := by
  simp only [extractShopeeTail, formatPeakRow]
  rw [shStepFinal_O, shStepSync2_O, shStepSync1_O, shStepCompact_O,
    shStepFixed2_O, shStepS_O, shStepP_O, shStepR_O, shStepN_O, shStepFixed_O]

/-- The double reference sync preserves reference equality. -/
lemma shSync12_keep (r : Row) (h : r.C_reference = r.G_invoice_no) :
    (shStepSync2 (shStepSync1 r)).C_reference =
      (shStepSync2 (shStepSync1 r)).G_invoice_no := by
  unfold shStepSync1
  split
  · unfold shStepSync2
    split
    · rfl
    · rfl
  · unfold shStepSync2
    split
    · rfl
    · exact h

/-- The final reference compaction preserves reference equality. -/
lemma shStepCompact_CG (r : Row) (h : r.C_reference = r.G_invoice_no) :
    (shStepCompact r).C_reference = (shStepCompact r).G_invoice_no := by
  show compactRefShopee r.C_reference = compactRefShopee r.G_invoice_no
  rw [h]

/-- The Shopee tail keeps the two reference fields equal. -/
lemma extractShopeeTail_CG (t : String) (r : Row)
    (h : r.C_reference = r.G_invoice_no) :
    (extractShopeeTail t r).C_reference =
      (extractShopeeTail t r).G_invoice_no := by
  simp only [extractShopeeTail, formatPeakRow]
  rw [shStepFinal_C, shStepFinal_G]
  apply shSync12_keep
  apply shStepCompact_CG
  rw [shStepFixed2_C, shStepS_C, shStepP_C, shStepR_C, shStepN_C,
    shStepFixed_C, shStepFixed2_G, shStepS_G, shStepP_G, shStepR_G,
    shStepN_G, shStepFixed_G]
  exact h

lemma shStepDate_C (d : String) (r : Row) :
    (shStepDate d r).C_reference = r.C_reference := by
  unfold shStepDate
  split <;> rfl

lemma shStepDate_G (d : String) (r : Row) :
    (shStepDate d r).G_invoice_no = r.G_invoice_no := by
  unfold shStepDate
  split <;> rfl

lemma shStepRef_CG (f : String) (r : Row)
    (h : r.C_reference = r.G_invoice_no) :
    (shStepRef f r).C_reference = (shStepRef f r).G_invoice_no := by
  unfold shStepRef
  split
  · rfl
  · exact h

lemma shStepF_C (t : String) (r : Row) :
    (shStepF t r).C_reference = r.C_reference := rfl

lemma shStepF_G (t : String) (r : Row) :
    (shStepF t r).G_invoice_no = r.G_invoice_no := rfl

lemma shStepD_C (cid vt : String) (r : Row) :
    (shStepD cid vt r).C_reference = r.C_reference := by
  unfold shStepD
  split <;> rfl

lemma shStepD_G (cid vt : String) (r : Row) :
    (shStepD cid vt r).G_invoice_no = r.G_invoice_no := by
  unfold shStepD
  split <;> rfl

/-- The Shopee head writes the glued reference into both reference
fields. -/
lemma extractShopeeHead_CG (text cid fn : String) :
    (extractShopeeHead text cid fn).C_reference =
      (extractShopeeHead text cid fn).G_invoice_no := by
  simp only [extractShopeeHead]
  rw [shStepDate_C, shStepDate_G]
  apply shStepRef_CG
  rw [shStepF_C, shStepD_C, shStepF_G, shStepD_G]
  rfl

lemma spStepM_N (r : Row) : (spStepM r).N_unit_price = r.N_unit_price := rfl

lemma spStepM_R (r : Row) : (spStepM r).R_paid_amount = r.R_paid_amount := rfl

lemma spStepM_O (r : Row) : (spStepM r).O_vat_rate = r.O_vat_rate := rfl

lemma spStepM_C (r : Row) : (spStepM r).C_reference = r.C_reference := rfl

lemma spStepM_G (r : Row) : (spStepM r).G_invoice_no = r.G_invoice_no := rfl

lemma spStepAmounts_N (a : SpxAmounts) (r : Row) :
    (spStepAmounts a r).N_unit_price =
      (if a.totalIncVat ≠ "" then a.totalIncVat
       else if r.N_unit_price ≠ "" then r.N_unit_price else "0") := by
  unfold spStepAmounts
  split <;> rfl

lemma spStepAmounts_R (a : SpxAmounts) (r : Row) :
    (spStepAmounts a r).R_paid_amount =
      (if a.totalIncVat ≠ "" then a.totalIncVat
       else if r.R_paid_amount ≠ "" then r.R_paid_amount else "0") := by
  unfold spStepAmounts
  split <;> rfl

lemma spStepAmounts_O (a : SpxAmounts) (r : Row) :
    (spStepAmounts a r).O_vat_rate = r.O_vat_rate := by
  unfold spStepAmounts
  split <;> rfl

lemma spStepAmounts_P (a : SpxAmounts) (r : Row) :
    (spStepAmounts a r).P_wht = r.P_wht := by
  unfold spStepAmounts
  split <;> rfl

lemma spStepAmounts_S (a : SpxAmounts) (r : Row) :
    (spStepAmounts a r).S_pnd = r.S_pnd := by
  unfold spStepAmounts
  split <;> rfl

lemma spStepAmounts_C (a : SpxAmounts) (r : Row) :
    (spStepAmounts a r).C_reference = r.C_reference := by
  unfold spStepAmounts
  split <;> rfl

lemma spStepAmounts_G (a : SpxAmounts) (r : Row) :
    (spStepAmounts a r).G_invoice_no = r.G_invoice_no := by
  unfold spStepAmounts
  split <;> rfl

lemma spStepJO_N (r : Row) : (spStepJO r).N_unit_price = r.N_unit_price := rfl

lemma spStepJO_R (r : Row) : (spStepJO r).R_paid_amount = r.R_paid_amount := rfl

lemma spStepJO_O (r : Row) : (spStepJO r).O_vat_rate = "7%" := rfl

lemma spStepJO_P (r : Row) : (spStepJO r).P_wht = r.P_wht := rfl

lemma spStepJO_S (r : Row) : (spStepJO r).S_pnd = r.S_pnd := rfl

lemma spStepJO_C (r : Row) : (spStepJO r).C_reference = r.C_reference := rfl

lemma spStepJO_G (r : Row) : (spStepJO r).G_invoice_no = r.G_invoice_no := rfl

lemma spStepWht_P (a : SpxAmounts) (r : Row) :
    (spStepWht a r).P_wht = (if a.hasWht then "3%" else "0") := by
  unfold spStepWht
  rw [if_neg (show ¬pyUpper WHT_RATE_MODE = "ALWAYS" by decide)]

lemma spStepWht_S (a : SpxAmounts) (r : Row) :
    (spStepWht a r).S_pnd = (if a.hasWht then "53" else "") := by
  unfold spStepWht
  rw [if_neg (show ¬pyUpper WHT_RATE_MODE = "ALWAYS" by decide)]

lemma spStepWht_N (a : SpxAmounts) (r : Row) :
    (spStepWht a r).N_unit_price = r.N_unit_price := by
  unfold spStepWht
  split <;> rfl

lemma spStepWht_R (a : SpxAmounts) (r : Row) :
    (spStepWht a r).R_paid_amount = r.R_paid_amount := by
  unfold spStepWht
  split <;> rfl

lemma spStepWht_O (a : SpxAmounts) (r : Row) :
    (spStepWht a r).O_vat_rate = r.O_vat_rate := by
  unfold spStepWht
  split <;> rfl

lemma spStepWht_C (a : SpxAmounts) (r : Row) :
    (spStepWht a r).C_reference = r.C_reference := by
  unfold spStepWht
  split <;> rfl

lemma spStepWht_G (a : SpxAmounts) (r : Row) :
    (spStepWht a r).G_invoice_no = r.G_invoice_no := by
  unfold spStepWht
  split <;> rfl

lemma spStepFixed2_N (r : Row) : (spStepFixed2 r).N_unit_price = r.N_unit_price := rfl

lemma spStepFixed2_R (r : Row) : (spStepFixed2 r).R_paid_amount = r.R_paid_amount := rfl

lemma spStepFixed2_O (r : Row) : (spStepFixed2 r).O_vat_rate = r.O_vat_rate := rfl

lemma spStepFixed2_P (r : Row) : (spStepFixed2 r).P_wht = r.P_wht := rfl

lemma spStepFixed2_S (r : Row) : (spStepFixed2 r).S_pnd = r.S_pnd := rfl

lemma spStepFixed2_C (r : Row) : (spStepFixed2 r).C_reference = r.C_reference := rfl

lemma spStepFixed2_G (r : Row) : (spStepFixed2 r).G_invoice_no = r.G_invoice_no := rfl

lemma spStepSync1_N (r : Row) : (spStepSync1 r).N_unit_price = r.N_unit_price := by
  unfold spStepSync1
  split <;> rfl

lemma spStepSync1_R (r : Row) : (spStepSync1 r).R_paid_amount = r.R_paid_amount := by
  unfold spStepSync1
  split <;> rfl

lemma spStepSync1_O (r : Row) : (spStepSync1 r).O_vat_rate = r.O_vat_rate := by
  unfold spStepSync1
  split <;> rfl

lemma spStepSync1_P (r : Row) : (spStepSync1 r).P_wht = r.P_wht := by
  unfold spStepSync1
  split <;> rfl

lemma spStepSync1_S (r : Row) : (spStepSync1 r).S_pnd = r.S_pnd := by
  unfold spStepSync1
  split <;> rfl

lemma spStepSync2_N (r : Row) : (spStepSync2 r).N_unit_price = r.N_unit_price := by
  unfold spStepSync2
  split <;> rfl

lemma spStepSync2_R (r : Row) : (spStepSync2 r).R_paid_amount = r.R_paid_amount := by
  unfold spStepSync2
  split <;> rfl

lemma spStepSync2_O (r : Row) : (spStepSync2 r).O_vat_rate = r.O_vat_rate := by
  unfold spStepSync2
  split <;> rfl

lemma spStepSync2_P (r : Row) : (spStepSync2 r).P_wht = r.P_wht := by
  unfold spStepSync2
  split <;> rfl

lemma spStepSync2_S (r : Row) : (spStepSync2 r).S_pnd = r.S_pnd := by
  unfold spStepSync2
  split <;> rfl

lemma spStepK_N (r : Row) : (spStepK r).N_unit_price = r.N_unit_price := rfl

lemma spStepK_R (r : Row) : (spStepK r).R_paid_amount = r.R_paid_amount := rfl

lemma spStepK_O (r : Row) : (spStepK r).O_vat_rate = r.O_vat_rate := rfl

lemma spStepK_P (r : Row) : (spStepK r).P_wht = r.P_wht := rfl

lemma spStepK_S (r : Row) : (spStepK r).S_pnd = r.S_pnd := rfl

lemma spStepK_C (r : Row) : (spStepK r).C_reference = r.C_reference := rfl

lemma spStepK_G (r : Row) : (spStepK r).G_invoice_no = r.G_invoice_no := rfl

/-- Unit price produced by the SPX tail. -/
lemma extractSpxTail_N (t : String) (r : Row) :
    (extractSpxTail t r).N_unit_price =
      (if (extractAmountsSpxStrict t).totalIncVat ≠ ""
       then (extractAmountsSpxStrict t).totalIncVat
       else if r.N_unit_price ≠ "" then r.N_unit_price else "0") := by
  simp only [extractSpxTail, formatPeakRow]
  rw [spStepK_N, spStepSync2_N, spStepSync1_N, spStepFixed2_N, spStepWht_N,
    spStepJO_N, spStepAmounts_N, spStepM_N]

/-- Paid amount produced by the SPX tail. -/
lemma extractSpxTail_R (t : String) (r : Row) :
    (extractSpxTail t r).R_paid_amount =
      (if (extractAmountsSpxStrict t).totalIncVat ≠ ""
       then (extractAmountsSpxStrict t).totalIncVat
       else if r.R_paid_amount ≠ "" then r.R_paid_amount else "0") := by
  simp only [extractSpxTail, formatPeakRow]
  rw [spStepK_R, spStepSync2_R, spStepSync1_R, spStepFixed2_R, spStepWht_R,
    spStepJO_R, spStepAmounts_R, spStepM_R]

/-- VAT rate produced by the SPX tail. -/
lemma extractSpxTail_O (t : String) (r : Row) :
    (extractSpxTail t r).O_vat_rate = "7%" := by
  simp only [extractSpxTail, formatPeakRow]
  rw [spStepK_O, spStepSync2_O, spStepSync1_O, spStepFixed2_O, spStepWht_O,
    spStepJO_O]

/-- Withholding produced by the SPX tail in AUTO mode. -/
lemma extractSpxTail_P (t : String) (r : Row) :
    (extractSpxTail t r).P_wht =
      (if (extractAmountsSpxStrict t).hasWht then "3%" else "0") := by
  simp only [extractSpxTail, formatPeakRow]
  rw [spStepK_P, spStepSync2_P, spStepSync1_P, spStepFixed2_P, spStepWht_P]

/-- PND code produced by the SPX tail in AUTO mode. -/
lemma extractSpxTail_S (t : String) (r : Row) :
    (extractSpxTail t r).S_pnd =
      (if (extractAmountsSpxStrict t).hasWht then "53" else "") := by
  simp only [extractSpxTail, formatPeakRow]
  rw [spStepK_S, spStepSync2_S, spStepSync1_S, spStepFixed2_S, spStepWht_S]

/-- The double reference sync of extract_spx preserves reference
equality. -/
lemma spSync12_keep (r : Row) (h : r.C_reference = r.G_invoice_no) :
    (spStepSync2 (spStepSync1 r)).C_reference =
      (spStepSync2 (spStepSync1 r)).G_invoice_no := by
  unfold spStepSync1
  split
  · unfold spStepSync2
    split
    · rfl
    · rfl
  · unfold spStepSync2
    split
    · rfl
    · exact h

/-- The SPX tail keeps the two reference fields equal. -/
lemma extractSpxTail_CG (t : String) (r : Row)
    (h : r.C_reference = r.G_invoice_no) :
    (extractSpxTail t r).C_reference = (extractSpxTail t r).G_invoice_no := by
  simp only [extractSpxTail, formatPeakRow]
  rw [spStepK_C, spStepK_G]
  apply spSync12_keep
  rw [spStepFixed2_C, spStepWht_C, spStepJO_C, spStepAmounts_C, spStepM_C,
    spStepFixed2_G, spStepWht_G, spStepJO_G, spStepAmounts_G, spStepM_G]
  exact h

lemma spStepDate_N (d : String) (r : Row) :
    (spStepDate d r).N_unit_price = r.N_unit_price := by
  unfold spStepDate
  split <;> rfl

lemma spStepDate_R (d : String) (r : Row) :
    (spStepDate d r).R_paid_amount = r.R_paid_amount := by
  unfold spStepDate
  split <;> rfl

lemma spStepDate_C (d : String) (r : Row) :
    (spStepDate d r).C_reference = r.C_reference := by
  unfold spStepDate
  split <;> rfl

lemma spStepDate_G (d : String) (r : Row) :
    (spStepDate d r).G_invoice_no = r.G_invoice_no := by
  unfold spStepDate
  split <;> rfl

lemma spStepRef_N (f : String) (r : Row) :
    (spStepRef f r).N_unit_price = r.N_unit_price := by
  unfold spStepRef
  split <;> rfl

lemma spStepRef_R (f : String) (r : Row) :
    (spStepRef f r).R_paid_amount = r.R_paid_amount := by
  unfold spStepRef
  split <;> rfl

lemma spStepRef_CG (f : String) (r : Row)
    (h : r.C_reference = r.G_invoice_no) :
    (spStepRef f r).C_reference = (spStepRef f r).G_invoice_no := by
  unfold spStepRef
  split
  · rfl
  · exact h

/-- The SPX head leaves the money fields empty. -/
lemma extractSpxHead_N (text cid fn : String) :
    (extractSpxHead text cid fn).N_unit_price = "" := by
  simp only [extractSpxHead]
  rw [spStepDate_N, spStepRef_N]
  rfl

lemma extractSpxHead_R (text cid fn : String) :
    (extractSpxHead text cid fn).R_paid_amount = "" := by
  simp only [extractSpxHead]
  rw [spStepDate_R, spStepRef_R]
  rfl

/-- The SPX head writes the glued reference into both reference
fields. -/
lemma extractSpxHead_CG (text cid fn : String) :
    (extractSpxHead text cid fn).C_reference =
      (extractSpxHead text cid fn).G_invoice_no := by
  simp only [extractSpxHead]
  rw [spStepDate_C, spStepDate_G]
  apply spStepRef_CG
  rfl

lemma hasWSb_empty : hasWSb "" = false := rfl

/-- No-whitespace invariant of the synced reference pair. -/
lemma hasWSb_syncRefs_fst (x y : String) :
    hasWSb ((syncRefs (compactRefW x) (compactRefW y)).1) = false := by
  rw [syncRefs_eq (compactRefW x) (compactRefW y) (safeStr_compactRefW x)
    (safeStr_compactRefW y)]
  by_cases e1 : compactRefW x = ""
  · by_cases e2 : compactRefW y = ""
    · simp [e1, e2, compactRefW_noWS, hasWSb_empty]
    · simp [e1, e2, compactRefW_noWS, hasWSb_empty]
  · by_cases e2 : compactRefW y = ""
    · simp [e1, e2, compactRefW_noWS, hasWSb_empty]
    · simp [e1, e2, compactRefW_noWS, hasWSb_empty]

lemma hasWSb_syncRefs_snd (x y : String) :
    hasWSb ((syncRefs (compactRefW x) (compactRefW y)).2) = false := by
  rw [syncRefs_eq (compactRefW x) (compactRefW y) (safeStr_compactRefW x)
    (safeStr_compactRefW y)]
  by_cases e1 : compactRefW x = ""
  · by_cases e2 : compactRefW y = ""
    · simp [e1, e2, compactRefW_noWS, hasWSb_empty]
    · simp [e1, e2, compactRefW_noWS, hasWSb_empty]
  · by_cases e2 : compactRefW y = ""
    · simp [e1, e2, compactRefW_noWS, hasWSb_empty]
    · simp [e1, e2, compactRefW_noWS, hasWSb_empty]

/-- Exact characterization of when the sync leaves the two reference
fields equal. -/
lemma syncRefs_fst_eq_snd_iff (x y : String) :
    ((syncRefs (compactRefW x) (compactRefW y)).1 =
        (syncRefs (compactRefW x) (compactRefW y)).2 ↔
      (compactRefW x = "" ∨ compactRefW y = "" ∨
        compactRefW x = compactRefW y)) := by
  rw [syncRefs_eq (compactRefW x) (compactRefW y) (safeStr_compactRefW x)
    (safeStr_compactRefW y)]
  by_cases e1 : compactRefW x = ""
  · by_cases e2 : compactRefW y = ""
    · simp [e1, e2]
    · simp [e1, e2]
  · by_cases e2 : compactRefW y = ""
    · simp [e1, e2]
    · simp [e1, e2]


/-!  Job-level lemmas for the worker pipeline claims. -/

/-- The keyword binding of the worker call site always fails on
client_tax_id, whatever the arguments. -/
lemma callExtract_error (body : String → String → String × Row × List String)
    (text fn cid : String) (cfg : Cfg) :
    callExtractRowFromText body text fn cid cfg =
      .error "TypeError: extract_row_from_text() got an unexpected keyword argument client_tax_id" :=
  rfl

lemma updateFile_rows (j : Job) (idx : Nat) (p : FilePatch) :
    (updateFile j idx p).rows = j.rows := by
  unfold updateFile
  split <;> rfl

lemma appendRows_files (j : Job) (rows : List Row) :
    (appendRows j rows).files = j.files := by
  unfold appendRows
  split <;> rfl

lemma appendRows_rows_single (j : Job) (r : Row) :
    (appendRows j [r]).rows = j.rows ++ [r] := by
  unfold appendRows
  rw [if_neg (by simp)]

lemma get?_set_self {α : Type _} :
    ∀ (l : List α) (i : Nat) (a : α), i < l.length →
      (l.set i a).get? i = some a := by
  intro l
  induction l with
  | nil =>
      intro i a h
      exact absurd h (by simp)
  | cons x xs ih =>
      intro i a h
      cases i with
      | zero => rfl
      | succ n =>
          show (xs.set n a).get? n = some a
          exact ih n a (by simpa using h)

/-- update_file patches the addressed record in place. -/
lemma updateFile_state_at (j : Job) (idx : Nat) (p : FilePatch)
    (f : FileRec) (hf : j.files.get? idx = some f) :
    (updateFile j idx p).files.get? idx = some (applyFilePatch f p) := by
  have hlt : idx < j.files.length := by
    by_contra hge
    rw [List.get?_eq_none.mpr (Nat.le_of_not_lt hge)] at hf
    exact Option.noConfusion hf
  unfold updateFile
  rw [hf]
  show (j.files.set idx (applyFilePatch f p)).get? idx = some _
  exact get?_set_self _ idx _ hlt

/-- The except handler of the per-file loop reports only an error
file, never a done or needs-review one. -/
lemma errorBranch_counters (j : Job) (idx seq : Nat)
    (fn comp pU e : String) :
    (errorBranch j idx seq fn comp pU e).okInc = 0 ∧
    (errorBranch j idx seq fn comp pU e).reviewInc = 0 ∧
    (errorBranch j idx seq fn comp pU e).errInc = 1 :=
  ⟨rfl, rfl, rfl⟩

/-- The except handler appends exactly one normalized ERROR row. -/
lemma errorBranch_rows (j : Job) (idx seq : Nat) (fn comp pU e : String) :
    (errorBranch j idx seq fn comp pU e).job.rows =
      j.rows ++ [normalizeRowFields
        { A_seq := .int seq,
          A_company_name := if comp ≠ "" then comp else "",
          srcFile := fn,
          platformTag := if pU ≠ "" then pU else "UNKNOWN",
          statusTag := "ERROR", errorsTag := [e] } seq] := by
  simp only [errorBranch]
  rw [updateFile_rows, appendRows_rows_single]

/-- The except handler leaves the addressed file in state error. -/
lemma errorBranch_file_state (j : Job) (idx seq : Nat)
    (fn comp pU e : String) (f : FileRec)
    (hf : j.files.get? idx = some f) :
    ((errorBranch j idx seq fn comp pU e).job.files.get? idx).map
      FileRec.state = some "error" := by
  simp only [errorBranch]
  rw [updateFile_state_at _ idx _ f (by rw [appendRows_files]; exact hf)]
  rfl

/-- With a nonempty acquired text, the per-file pipeline reduces to
the except handler on the TypeError of the extract call binding. -/
lemma processOneFile_error (collab : Collab) (ac ap : List String)
    (sm : Bool) (cfg : Cfg) (aiOnly : Bool) (j : Job) (idx seq : Nat)
    (fn0 ct0 data : String)
    (ht : normalizeText (collab.getText
      (if fn0 ≠ "" then fn0 else "unknown")
      (if ct0 ≠ "" then ct0 else "") data) ≠ "") :
    processOneFile collab ac ap sm cfg aiOnly j idx seq fn0 ct0 data =
      errorBranch (updateFile j idx { state := some "processing" }) idx seq
        (if fn0 ≠ "" then fn0 else "unknown")
        (companyFromTaxId
          (detectClientTaxId
            (normalizeText (collab.getText
              (if fn0 ≠ "" then fn0 else "unknown")
              (if ct0 ≠ "" then ct0 else "") data))
            (if fn0 ≠ "" then fn0 else "unknown") cfg)
          (if fn0 ≠ "" then fn0 else "unknown"))
        "UNKNOWN"
        "TypeError: extract_row_from_text() got an unexpected keyword argument client_tax_id" := by
  simp only [processOneFile]
  rw [if_neg ht, callExtract_error]


/-- C3.  For every input row, whatever values the extractor or the AI
step produced, _normalize_row_fields sets P_wht to the empty string,
and _preprocess_rows_for_export does the same for every exported
row. -/
theorem c3_wht_forced_blank :
    (∀ (r : Row) (seq : Nat), (normalizeRowFields r seq).P_wht = "") ∧
    (∀ rows : List Row,
      ((preprocessRowsForExport rows).all (fun r => r.P_wht == "")) = true) := by
  constructor
  · intro r seq
    rfl
  · intro rows
    suffices h : ∀ (rs : List Row) (seq : Nat),
        ((preprocessGo rs seq).all (fun r => r.P_wht == "")) = true by
      exact h rows 1
    intro rs
    induction rs with
    | nil => intro seq; rfl
    | cons r rest ih =>
        intro seq
        simp only [preprocessGo, List.all_cons, Bool.and_eq_true]
        exact ⟨rfl, ih (seq + 1)⟩

/-- C4 counterexample.  The claim as stated is false at the concrete
SPX document with empty text: the extractor produces the withholding
value 0 (no genuine 3-percent remark), but after normalization the
withholding field is the empty string, not 0. -/
theorem c4_counterexample :
    (normalizeRowFields (extractSpx "" "" "") 1).P_wht ≠
      (if (extractAmountsSpxStrict (normalizeText "")).hasWht then "3%"
       else "0") := by decide

/-- C8 counterexample.  Vendor-code resolution through the hardcoded
extractor fallbacks returns the bare platform name when the client tax
id is empty: the SPX fallback table yields the string SPX, and both
extractors place bare platform names into the vendor-code field. -/
theorem c8_counterexample :
    vendorCodeFallbackForSpx "" = "SPX" ∧
    (extractSpx "" "" "").D_vendor_code = "SPX" ∧
    (extractShopee "" "" "").D_vendor_code = "Shopee" := by
  refine ⟨by decide, by decide, by decide⟩

/-- C10 counterexample.  The export serializes 22 columns, not the 21
canonical A-through-U fields: A_company_name is an export column
beyond the canonical key set (while no metadata key is a column). -/
theorem c10_counterexample :
    COLUMNS.map Prod.fst ≠ canonical21 ∧
    COLUMNS.length = 22 ∧
    "A_company_name" ∈ COLUMNS.map Prod.fst ∧
    "A_company_name" ∉ canonical21 := by decide

/-- C10 amended.  Each exported data record serializes exactly the 22
keys of COLUMNS, which are the 21 canonical fields with the company
name inserted after the sequence number; none of the metadata keys is
an export column. -/
theorem c10_amended :
    COLUMNS.map Prod.fst =
      ["A_seq", "A_company_name", "B_doc_date", "C_reference",
       "D_vendor_code", "E_tax_id_13", "F_branch_5", "G_invoice_no",
       "H_invoice_date", "I_tax_purchase_date", "J_price_type",
       "K_account", "L_description", "M_qty", "N_unit_price",
       "O_vat_rate", "P_wht", "Q_payment_method", "R_paid_amount",
       "S_pnd", "T_note", "U_group"] ∧
    (metadataKeys.all
      (fun k => !((COLUMNS.map Prod.fst).contains k))) = true ∧
    (∀ r : Row, (csvDataRow r).length = 22) := by
  refine ⟨by decide, by decide, ?_⟩
  intro r
  simp [csvDataRow, COLUMNS]



/-- C9 counterexample.  The row normalizer is not idempotent: on a row
whose unit price is TTHBHB, the first pass removes one occurrence of
THB and leaves the new occurrence THB, which the second pass then
removes, so applying the normalizer twice differs from applying it
once. -/
theorem c9_counterexample :
    normalizeRowFields (normalizeRowFields c9Row 1) 1 ≠
      normalizeRowFields c9Row 1 := by
  decide

/-- C9 amended.  The row normalizer is idempotent on every row whose
first normalization leaves no THB substring in the unit-price and
paid-amount fields (the only normalizer step that can fail to be
stable is the single-pass THB removal of the money cleanup). -/
theorem c9_amended (r : Row) (seq : Nat)
    (hN : hasSub "THB" ((normalizeRowFields r seq).N_unit_price) = false)
    (hR : hasSub "THB" ((normalizeRowFields r seq).R_paid_amount) = false) :
    normalizeRowFields (normalizeRowFields r seq) seq =
      normalizeRowFields r seq := by
  have hNne : (normalizeRowFields r seq).N_unit_price ≠ "" :=
    normMoney_ne_empty _
  have hRne : (normalizeRowFields r seq).R_paid_amount ≠ "" :=
    normMoney_ne_empty _
  apply Row.ext
  · rfl
  · exact pyStrip_idem r.A_company_name
  · exact normDateField_idem r.B_doc_date
  · rw [normalizeRowFields_C (normalizeRowFields r seq) seq,
      normalizeRowFields_C r seq, normalizeRowFields_G r seq]
    exact congrArg Prod.fst
      (syncRefs_compact_stable r.C_reference r.G_invoice_no)
  · exact pyStrip_idem r.D_vendor_code
  · exact normTax13_idem r.E_tax_id_13
  · exact normBranch_idem r.F_branch_5
  · rw [normalizeRowFields_G (normalizeRowFields r seq) seq,
      normalizeRowFields_C r seq, normalizeRowFields_G r seq]
    exact congrArg Prod.snd
      (syncRefs_compact_stable r.C_reference r.G_invoice_no)
  · exact normDateField_idem r.H_invoice_date
  · exact normDateField_idem r.I_tax_purchase_date
  · exact normPriceType_idem r.J_price_type
  · exact pyStrip_idem r.K_account
  · exact pyStrip_idem r.L_description
  · exact normQty_idem r.M_qty
  · rw [normalizeRowFields_N (normalizeRowFields r seq) seq,
      moneyOr_of_ne hNne]
    exact normMoney_stable _ hN
  · exact normVatRate_idem r.O_vat_rate
  · rfl
  · exact pyStrip_idem r.Q_payment_method
  · rw [normalizeRowFields_R (normalizeRowFields r seq) seq,
      moneyOr_of_ne hRne]
    exact normMoney_stable _ hR
  · exact pyStrip_idem r.S_pnd
  · exact pyStrip_idem r.T_note
  · exact pyStrip_idem r.U_group
  · rfl
  · rfl
  · rfl
  · rfl
  · rfl
  · rfl

/-- Witness for c9_amended at the default row. -/
theorem c9_amended_witness :
    (hasSub "THB" ((normalizeRowFields baseRowDict 1).N_unit_price) = false) ∧
    (hasSub "THB" ((normalizeRowFields baseRowDict 1).R_paid_amount) = false) ∧
    normalizeRowFields (normalizeRowFields baseRowDict 1) 1 =
      normalizeRowFields baseRowDict 1 :=
  ⟨by decide, by decide,
    c9_amended baseRowDict 1 (by decide) (by decide)⟩

/-- C1 counterexample.  On a Shopee settlement text that carries both
an excluded-VAT subtotal and an included-VAT total, the extractor puts
the subtotal, not the total, into the unit-price field, so the two
money fields differ. -/
theorem c1_counterexample :
    (shopeeAmounts (normalizeText c1ShopeeText)).2.2.1 = "107.00" ∧
    (extractShopee c1ShopeeText "" "").N_unit_price = "100.00" ∧
    (extractShopee c1ShopeeText "" "").R_paid_amount = "107.00" := by
  decide

/-- C1 amended.  Both extractors fix the VAT rate at 7 percent.  The
SPX extractor maps the detected included-VAT total (default 0) into
both money fields, but the Shopee extractor prefers the excluded-VAT
subtotal for the unit price while the paid amount prefers the
included-VAT total. -/
theorem c1_amended :
    (∀ t cid fn : String,
      (extractShopee t cid fn).O_vat_rate = "7%" ∧
      (extractShopee t cid fn).N_unit_price =
        shopeeNVal (shopeeAmounts (normalizeText t)) ∧
      (extractShopee t cid fn).R_paid_amount =
        shopeeRVal (shopeeAmounts (normalizeText t))) ∧
    (∀ t cid fn : String,
      (extractSpx t cid fn).O_vat_rate = "7%" ∧
      (extractSpx t cid fn).N_unit_price =
        spxNVal (extractAmountsSpxStrict (normalizeText t)) ∧
      (extractSpx t cid fn).R_paid_amount =
        spxNVal (extractAmountsSpxStrict (normalizeText t))) := by
  constructor
  · intro t cid fn
    refine ⟨?_, ?_, ?_⟩
    · simp only [extractShopee]
      exact extractShopeeTail_O _ _
    · simp only [extractShopee]
      exact extractShopeeTail_N _ _
    · simp only [extractShopee]
      exact extractShopeeTail_R _ _
  · intro t cid fn
    refine ⟨?_, ?_, ?_⟩
    · simp only [extractSpx]
      exact extractSpxTail_O _ _
    · simp only [extractSpx]
      rw [extractSpxTail_N, extractSpxHead_N]
      simp [spxNVal]
    · simp only [extractSpx]
      rw [extractSpxTail_R, extractSpxHead_R]
      simp [spxNVal]

/-- C2 counterexample.  When both reference fields are nonempty and
different, the row normalizer syncs neither, so they stay different
after normalization. -/
theorem c2_counterexample :
    (normalizeRowFields c2Row 1).C_reference = "AB" ∧
    (normalizeRowFields c2Row 1).G_invoice_no = "CD" ∧
    (normalizeRowFields c2Row 1).C_reference ≠
      (normalizeRowFields c2Row 1).G_invoice_no := by
  decide

/-- C2 amended.  After normalization both reference fields are free of
whitespace; they are equal exactly when one compacted source field is
empty or the two compacted source fields already agree; rows coming
out of the Shopee and SPX extractors always have equal reference
fields, before and after normalization. -/
theorem c2_amended :
    (∀ (r : Row) (seq : Nat),
      hasWSb ((normalizeRowFields r seq).C_reference) = false ∧
      hasWSb ((normalizeRowFields r seq).G_invoice_no) = false) ∧
    (∀ (r : Row) (seq : Nat),
      ((normalizeRowFields r seq).C_reference =
          (normalizeRowFields r seq).G_invoice_no ↔
        (compactRefW r.C_reference = "" ∨ compactRefW r.G_invoice_no = "" ∨
          compactRefW r.C_reference = compactRefW r.G_invoice_no))) ∧
    (∀ t cid fn : String, ∀ seq : Nat,
      (extractShopee t cid fn).C_reference =
          (extractShopee t cid fn).G_invoice_no ∧
      (extractSpx t cid fn).C_reference =
          (extractSpx t cid fn).G_invoice_no ∧
      (normalizeRowFields (extractShopee t cid fn) seq).C_reference =
          (normalizeRowFields (extractShopee t cid fn) seq).G_invoice_no ∧
      (normalizeRowFields (extractSpx t cid fn) seq).C_reference =
          (normalizeRowFields (extractSpx t cid fn) seq).G_invoice_no) := by
  refine ⟨fun r seq => ?_, fun r seq => ?_, fun t cid fn seq => ?_⟩
  · rw [normalizeRowFields_C, normalizeRowFields_G]
    exact ⟨hasWSb_syncRefs_fst _ _, hasWSb_syncRefs_snd _ _⟩
  · rw [normalizeRowFields_C, normalizeRowFields_G]
    exact syncRefs_fst_eq_snd_iff _ _
  · have hsh : (extractShopee t cid fn).C_reference =
        (extractShopee t cid fn).G_invoice_no := by
      simp only [extractShopee]
      exact extractShopeeTail_CG _ _ (extractShopeeHead_CG t cid fn)
    have hsp : (extractSpx t cid fn).C_reference =
        (extractSpx t cid fn).G_invoice_no := by
      simp only [extractSpx]
      exact extractSpxTail_CG _ _ (extractSpxHead_CG t cid fn)
    refine ⟨hsh, hsp, ?_, ?_⟩
    · rw [normalizeRowFields_C, normalizeRowFields_G]
      exact (syncRefs_fst_eq_snd_iff _ _).mpr
        (Or.inr (Or.inr (congrArg compactRefW hsh)))
    · rw [normalizeRowFields_C, normalizeRowFields_G]
      exact (syncRefs_fst_eq_snd_iff _ _).mpr
        (Or.inr (Or.inr (congrArg compactRefW hsp)))

/-- C4 amended.  In AUTO mode the SPX extractor itself sets the
withholding field to 3 percent exactly when a genuine 3-percent remark
was detected and to 0 otherwise (with the matching PND code), but the
row normalizer then unconditionally blanks the withholding field, so
the post-normalization value is the empty string, never 3 percent or
0. -/
theorem c4_amended (t cid fn : String) (seq : Nat) :
    ((extractSpx t cid fn).P_wht =
      if (extractAmountsSpxStrict (normalizeText t)).hasWht
      then "3%" else "0") ∧
    ((extractSpx t cid fn).S_pnd =
      if (extractAmountsSpxStrict (normalizeText t)).hasWht
      then "53" else "") ∧
    (normalizeRowFields (extractSpx t cid fn) seq).P_wht = "" := by
  refine ⟨?_, ?_, rfl⟩
  · simp only [extractSpx]
    exact extractSpxTail_P _ _
  · simp only [extractSpx]
    exact extractSpxTail_S _ _

/-- Any successful arm of the guarded vendor-code lookups of
get_vendor_code only yields validated codes. -/
lemma byLookup_valid (c v : String) : ∀ code : String,
    (if v ≠ "" then
      match vendorCodeLookup c v with
      | some code => if codeIsValid code then some code else none
      | none => none
     else none) = some code → codeIsValid code = true := by
  intro code h
  split at h
  · split at h
    · next heq =>
      split at h
      · next hvalid =>
        cases h
        exact hvalid
      · exact absurd h (by simp)
    · exact absurd h (by simp)
  · exact absurd h (by simp)

/-- Structural form of get_vendor_code. -/
lemma getVendorCode_eq (cid vt vn : String) :
    getVendorCode cid vt vn =
      (if normTaxId cid = "" || !isKnownClient (normTaxId cid) then "Unknown"
       else
         match (if normTaxId vt ≠ "" then
             match vendorCodeLookup (normTaxId cid) (normTaxId vt) with
             | some code => if codeIsValid code then some code else none
             | none => none
           else none) with
         | some code => code
         | none =>
             match (if getVendorTaxIdFromName
                   (if vn ≠ "" then vn else vt) ≠ "" then
                 match vendorCodeLookup (normTaxId cid)
                     (getVendorTaxIdFromName (if vn ≠ "" then vn else vt)) with
                 | some code => if codeIsValid code then some code else none
                 | none => none
               else none) with
             | some code => code
             | none => "Unknown") := rfl

/-- C7 counterexample.  With a nonempty company allow-list, no strict
mode and the company value UNKNOWN, the code reports a mismatch (it
reserves the unknown-value rule for platforms), while the claimed
decision treats UNKNOWN as unknown and reports none. -/
theorem c7_counterexample :
    (cfgMismatch ["A"] [] false "UNKNOWN" "").1 = true ∧
    claimedCfgMismatch ["A"] [] false "UNKNOWN" "" = false := by
  decide

/-- C7 amended.  The filter-mismatch flag of _cfg_mismatch equals the
claimed decision once a company value is treated as known whenever it
is non-empty: the unknown-value strict-mode rule applies to the
literal UNKNOWN string only on the platform side. -/
theorem c7_amended (ac ap : List String) (sm : Bool)
    (company platformU : String) :
    (cfgMismatch ac ap sm company platformU).1 =
      claimedCfgMismatchAmended ac ap sm company platformU := by
  by_cases hac : ac.isEmpty <;>
  by_cases hap : ap.isEmpty <;>
  by_cases hc : pyStrip (pyUpper company) = "" <;>
  by_cases hmc : pyStrip (pyUpper company) ∈ ac <;>
  by_cases hsm : sm = true <;>
  by_cases hp1 : pyStrip (pyUpper platformU) = "" <;>
  by_cases hp2 : pyStrip (pyUpper platformU) = "UNKNOWN" <;>
  by_cases hmp : pyStrip (pyUpper platformU) ∈ ap <;>
  simp [cfgMismatch, claimedCfgMismatchAmended, hac, hap, hc, hmc, hsm,
    hp1, hp2, hmp]

/-- C8 amended.  The hardened resolver get_vendor_code returns the
sentinel Unknown or a validated C-code, never a platform name; an
unknown client always resolves to Unknown.  The platform-name leak of
the counterexample lives solely in the extractors' hardcoded fallback
tables, which return a validated code for the three hardcoded clients
and the bare platform name otherwise. -/
theorem c8_amended :
    (∀ cid vt vn : String,
      getVendorCode cid vt vn = "Unknown" ∨
        codeIsValid (getVendorCode cid vt vn) = true) ∧
    (∀ cid vt vn : String, isKnownClient (normTaxId cid) = false →
      getVendorCode cid vt vn = "Unknown") ∧
    (∀ cid : String,
      vendorCodeFallbackForSpx cid = "SPX" ∨
        codeIsValid (vendorCodeFallbackForSpx cid) = true) := by
  refine ⟨fun cid vt vn => ?_, fun cid vt vn h => ?_, fun cid => ?_⟩
  · rw [getVendorCode_eq]
    split
    · exact Or.inl rfl
    · split
      · next code heq =>
        exact Or.inr (byLookup_valid _ _ code heq)
      · split
        · next code heq =>
          exact Or.inr (byLookup_valid _ _ code heq)
        · exact Or.inl rfl
  · rw [getVendorCode_eq]
    rw [if_pos]
    simp [h]
  · simp only [vendorCodeFallbackForSpx]
    split_ifs
    · exact Or.inr (by decide)
    · exact Or.inr (by decide)
    · exact Or.inr (by decide)
    · exact Or.inl rfl

/-- C5.  For every collaborator, filter configuration, job, file index
addressing an existing file record and payload whose acquired text is
non-empty, the worker call to extract_row_from_text raises TypeError
on the keyword client_tax_id, the per-file handler runs, and the file
ends in state error with exactly one appended ERROR-tagged row; the
done and needs-review counters do not move, so no text-bearing file
reaches those states through the extraction path. -/
theorem c5_text_file_always_errors (collab : Collab)
    (ac ap : List String) (sm : Bool) (cfg : Cfg) (aiOnly : Bool)
    (j : Job) (idx seq : Nat) (fn0 ct0 data : String)
    (ht : normalizeText (collab.getText
      (if fn0 ≠ "" then fn0 else "unknown")
      (if ct0 ≠ "" then ct0 else "") data) ≠ "")
    (f : FileRec) (hf : j.files.get? idx = some f) :
    (processOneFile collab ac ap sm cfg aiOnly j idx seq
      fn0 ct0 data).okInc = 0 ∧
    (processOneFile collab ac ap sm cfg aiOnly j idx seq
      fn0 ct0 data).reviewInc = 0 ∧
    (processOneFile collab ac ap sm cfg aiOnly j idx seq
      fn0 ct0 data).errInc = 1 ∧
    (processOneFile collab ac ap sm cfg aiOnly j idx seq
      fn0 ct0 data).job.rows.length = j.rows.length + 1 ∧
    ((processOneFile collab ac ap sm cfg aiOnly j idx seq
      fn0 ct0 data).job.rows.getLast?).map Row.statusTag =
        some "ERROR" ∧
    (((processOneFile collab ac ap sm cfg aiOnly j idx seq
      fn0 ct0 data).job.files.get? idx).map FileRec.state) =
        some "error" := by
  rw [processOneFile_error collab ac ap sm cfg aiOnly j idx seq
    fn0 ct0 data ht]
  refine ⟨rfl, rfl, rfl, ?_, ?_, ?_⟩
  · rw [errorBranch_rows, updateFile_rows]
    simp
  · rw [errorBranch_rows, List.getLast?_concat]
    rfl
  · exact errorBranch_file_state _ idx seq _ _ _ _
      (applyFilePatch f { state := some "processing" })
      (updateFile_state_at j idx _ f hf)

/-- Witness for c5_text_file_always_errors on the one-file job. -/
theorem c5_text_file_always_errors_witness :
    (normalizeText (trivialCollab.getText
      (if "a.pdf" ≠ "" then "a.pdf" else "unknown")
      (if "application/pdf" ≠ "" then "application/pdf" else "") "B")
        ≠ "") ∧
    (c5Job.files.get? 0 = some { filename := "a.pdf" }) ∧
    ((processOneFile trivialCollab [] [] false {} false c5Job 0 1
      "a.pdf" "application/pdf" "B").okInc = 0 ∧
    (processOneFile trivialCollab [] [] false {} false c5Job 0 1
      "a.pdf" "application/pdf" "B").reviewInc = 0 ∧
    (processOneFile trivialCollab [] [] false {} false c5Job 0 1
      "a.pdf" "application/pdf" "B").errInc = 1 ∧
    (processOneFile trivialCollab [] [] false {} false c5Job 0 1
      "a.pdf" "application/pdf" "B").job.rows.length =
        c5Job.rows.length + 1 ∧
    ((processOneFile trivialCollab [] [] false {} false c5Job 0 1
      "a.pdf" "application/pdf" "B").job.rows.getLast?).map
        Row.statusTag = some "ERROR" ∧
    (((processOneFile trivialCollab [] [] false {} false c5Job 0 1
      "a.pdf" "application/pdf" "B").job.files.get? 0).map
        FileRec.state) = some "error") :=
  ⟨by decide, by decide,
    c5_text_file_always_errors trivialCollab [] [] false {} false c5Job
      0 1 "a.pdf" "application/pdf" "B" (by decide)
      { filename := "a.pdf" } (by decide)⟩

/-- C6.  The claim fails before any file is processed: add_file stores
four-component payload tuples while the worker loop header unpacks
three, so the ValueError escapes the per-file try on the first
iteration; the job ends in state error with an empty row list, every
attached file keeps rows_count zero, and no file contributed a row. -/
theorem c6_payload_unpack_value_error (collab : Collab) (aiOnly : Bool)
    (fn ct data : String) :
    (runJob collab aiOnly (addFile (createJob {}) fn ct data)).state =
      "error" ∧
    (runJob collab aiOnly (addFile (createJob {}) fn ct data)).rows =
      [] ∧
    (runJob collab aiOnly (addFile (createJob {}) fn ct data)).lastError =
      "ValueError: too many values to unpack (expected 3)" ∧
    (runJob collab aiOnly (addFile (createJob {}) fn ct data)).files.map
      FileRec.rowsCount = [0] ∧
    (addFile (createJob {}) fn ct data).files.length = 1 :=
  ⟨rfl, rfl, rfl, rfl, rfl⟩

end Peak
